import Mathlib

/-!
# Pcap_DNSProxy: the error log printer (PrintLog.cpp)

A shallow embedding of `PrintError`, `ErrorCodeToMessage` and
`WriteScreenAndFile`, followed by the properties of the logging subsystem
that were checked against it.

Wide strings are lists of characters.  The process-wide data
(`GlobalRunningStatus`, the standard error stream, the log file) is passed
explicitly; the answers of the operating system to one call (local time,
file deletion, file opening) are an argument of that call.
-/

set_option autoImplicit false

namespace PrintLog

/-! ## Build configuration and data -/

/-- A `std::wstring`. -/
abbrev WString := List Char

/-- The three targets selected by the preprocessor. -/
inductive Platform
  | PLATFORM_WIN
  | PLATFORM_LINUX
  | PLATFORM_MACX
deriving DecidableEq, Repr

/-- What the preprocessor and the host platform fix for one build: the target,
the optional features, the two socket error constants compared in the Network
case, and the message lookups of the platform.  `FormatMessageW c` is the
text returned for the `DWORD` value `c` (`none` when the call returns 0),
`strerror c` the
text for the `int` value `c` (`none` for a null pointer) and `MBSToWCSString`
the transcoding helper of the repository, which is declared outside this file.
`OtherOutput` is what the C library writes for a format string and arguments
that fall outside the conversions described by `vfwprintf_s` below; nothing is
assumed about it. -/
structure Build where
  platform : Platform
  ENABLE_PCAP : Bool
  ENABLE_LIBSODIUM : Bool
  WSAENETUNREACH : Int
  WSAEHOSTUNREACH : Int
  FormatMessageW : Int → Option WString
  strerror : Int → Option WString
  MBSToWCSString : WString → Option WString
  OtherOutput : WString → List Int → WString

/-- The fields of `Parameter` read by the printer. -/
structure ConfigurationTable where
  PrintLogLevel : Nat
  LogMaxSize : Nat

/-- A `struct tm`, as filled in by `localtime_s` or `localtime_r`. -/
structure tm where
  tm_year : Int
  tm_mon : Int
  tm_mday : Int
  tm_hour : Int
  tm_min : Int
  tm_sec : Int
deriving DecidableEq, Repr

/-- The answers of the operating system during one call of
`WriteScreenAndFile`: the converted local time (`none` when the conversion
fails), whether deleting the log file succeeds if it is asked for, and whether
opening the log file for appending succeeds. -/
structure SystemCalls where
  localtime : Option tm
  remove : Bool
  fopen : Bool

/-- The process-wide data: the fields of `GlobalRunningStatus` used here, what
has been written to the standard error stream, and the log file at
`Path_ErrorLog` (`none` when there is no such file). -/
structure Process where
  StartupTime : Int
  IsConsole : Bool
  IsDaemon : Bool
  Screen : WString
  ErrorLog : Option WString
deriving DecidableEq, Repr

/-- What one call is observed to do, in order. -/
inductive Event
  | ScreenStartup
  | ScreenMessage
  | FileDeleted
  | FileDeleteFailed
  | FileOpenFailed
  | FileStartup
  | FileOldDeleted
  | FileMessage
deriving DecidableEq, Repr

/-- The result of a call: the returned boolean, the process data afterwards
and the events of the call. -/
structure Outcome where
  result : Bool
  after : Process
  events : List Event
deriving DecidableEq, Repr

/-! ## Constants -/

/-- Modelled from the spec: the log level macros are defined in a header that
is not part of the sources at hand; level 0 switches logging off. -/
def LOG_LEVEL_0 : Nat := 0

/-- Modelled from the spec: the highest log level, 3 (see `LOG_LEVEL_0`). -/
def LOG_LEVEL_3 : Nat := 3

/-- Modelled from the spec: the error type codes are macros of a header that is
not part of the sources at hand; they are numbered here in the order of the
cases of the switch in `PrintError`.  This is the code of a notice. -/
def LOG_MESSAGE_NOTICE : Nat := 1

/-- Modelled from the spec: code of the System category (see `LOG_MESSAGE_NOTICE`). -/
def LOG_ERROR_SYSTEM : Nat := 2

/-- Modelled from the spec: code of the Parameter category (see `LOG_MESSAGE_NOTICE`). -/
def LOG_ERROR_PARAMETER : Nat := 3

/-- Modelled from the spec: code of the IPFilter category (see `LOG_MESSAGE_NOTICE`). -/
def LOG_ERROR_IPFILTER : Nat := 4

/-- Modelled from the spec: code of the Hosts category (see `LOG_MESSAGE_NOTICE`). -/
def LOG_ERROR_HOSTS : Nat := 5

/-- Modelled from the spec: code of the Network category (see `LOG_MESSAGE_NOTICE`). -/
def LOG_ERROR_NETWORK : Nat := 6

/-- Modelled from the spec: code of the Pcap (capture) category (see `LOG_MESSAGE_NOTICE`). -/
def LOG_ERROR_PCAP : Nat := 7

/-- Modelled from the spec: code of the DNSCurve category (see `LOG_MESSAGE_NOTICE`). -/
def LOG_ERROR_DNSCURVE : Nat := 8

/-- Modelled from the spec: code of the SOCKS category (see `LOG_MESSAGE_NOTICE`). -/
def LOG_ERROR_SOCKS : Nat := 9

/-- Modelled from the spec: code of the HTTP category (see `LOG_MESSAGE_NOTICE`). -/
def LOG_ERROR_HTTP : Nat := 10

/-! ## Formatted output -/

/-- The decimal digits of a natural number. -/
def decimal (n : Nat) : WString := Nat.toDigits 10 n

/-- The signed decimal text of an integer, as `%d` prints it. -/
def signedDecimal (a : Int) : WString :=
  if a < 0 then '-' :: decimal a.natAbs else decimal a.natAbs

/-- A number padded to a field width: with zeros after the sign under the `0`
flag, with blanks before the sign otherwise. -/
def padNumber (zero : Bool) (width : Nat) (negative : Bool) (digits : WString) : WString :=
  let sign : WString := if negative then ['-'] else []
  let fill : WString :=
    List.replicate (width - (sign.length + digits.length)) (if zero then '0' else ' ')
  if zero then sign ++ fill ++ digits else fill ++ sign ++ digits

/-- Where the scan of a format string stands: in ordinary text, or inside a
conversion specification after `%` with the flag and width read so far. -/
inductive Scan
  | Text
  | Spec (zero : Bool) (width : Nat)

/-- The value of a cast to `int`, and what a `%d` conversion reads from a
wider argument: the low 32 bits, taken as a signed number. -/
def castInt (v : Int) : Int := (v + 2 ^ 31) % 2 ^ 32 - 2 ^ 31

/-- The value of a cast to `DWORD` or `unsigned int`, and what a `%u`
conversion reads from a wider argument: the low 32 bits, taken as an unsigned
number. -/
def castUnsigned (v : Int) : Nat := (v % 2 ^ 32).toNat

/-- The text produced by the `printf` family for a format string and its
variable arguments, for these conversion specifications: `%d`, `%i`, `%u`,
`%o`, `%x` and `%X`, each with an optional `0` flag and width, and `%%`.  Every
conversion takes one argument and prints its low 32 bits: the program passes
`ssize_t` and `size_t` values where `int` and `unsigned int` are read.  The
result is `none` for everything else: a conversion without an argument, an
unfinished conversion specification, or one with another flag, a precision, a
length modifier or another conversion character. -/
def vfwprintf_s : Scan → WString → List Int → Option WString
  | .Text, [], _ => some []
  | .Spec _ _, [], _ => none
  | .Text, c :: cs, args =>
    if c = '%' then vfwprintf_s (.Spec false 0) cs args
    else (vfwprintf_s .Text cs args).map (fun out => c :: out)
  | .Spec zero width, c :: cs, args =>
    if c = '%' then
      if zero = false ∧ width = 0 then (vfwprintf_s .Text cs args).map (fun out => '%' :: out)
      else none
    else if c = '0' ∧ zero = false ∧ width = 0 then vfwprintf_s (.Spec true 0) cs args
    else if c.isDigit then vfwprintf_s (.Spec zero (10 * width + (c.toNat - 48))) cs args
    else if c = 'd' ∨ c = 'i' then
      match args with
      | [] => none
      | a :: rest =>
        (vfwprintf_s .Text cs rest).map
          (fun out => padNumber zero width (decide (castInt a < 0))
            (decimal (castInt a).natAbs) ++ out)
    else if c = 'u' then
      match args with
      | [] => none
      | a :: rest =>
        (vfwprintf_s .Text cs rest).map
          (fun out => padNumber zero width false (decimal (castUnsigned a)) ++ out)
    else if c = 'o' then
      match args with
      | [] => none
      | a :: rest =>
        (vfwprintf_s .Text cs rest).map
          (fun out => padNumber zero width false (Nat.toDigits 8 (castUnsigned a)) ++ out)
    else if c = 'x' then
      match args with
      | [] => none
      | a :: rest =>
        (vfwprintf_s .Text cs rest).map
          (fun out => padNumber zero width false (Nat.toDigits 16 (castUnsigned a)) ++ out)
    else if c = 'X' then
      match args with
      | [] => none
      | a :: rest =>
        (vfwprintf_s .Text cs rest).map
          (fun out => padNumber zero width false
            ((Nat.toDigits 16 (castUnsigned a)).map Char.toUpper) ++ out)
    else none

/-- What a call of `fwprintf_s` or `PrintToScreen` appends to its stream:
the formatted text where `vfwprintf_s` describes it, and otherwise whatever
the C library of the build writes. -/
def fwprintf_s (B : Build) (Format : WString) (args : List Int) : WString :=
  match vfwprintf_s .Text Format args with
  | some out => out
  | none => B.OtherOutput Format args

/-- The six arguments that every time stamp format receives. -/
def TimeArguments (TimeStructure : tm) : List Int :=
  [TimeStructure.tm_year + 1900, TimeStructure.tm_mon + 1, TimeStructure.tm_mday,
    TimeStructure.tm_hour, TimeStructure.tm_min, TimeStructure.tm_sec]

/-- The startup line, printed once before the first message. -/
def StartupLine (B : Build) (TimeStructure : tm) : WString :=
  fwprintf_s B "[%d-%02d-%02d %02d:%02d:%02d] -> [Notice] Pcap_DNSProxy started.\n".toList
    (TimeArguments TimeStructure)

/-- The line printed into a log file that replaces a deleted one. -/
def OldLogDeletedLine (B : Build) (TimeStructure : tm) : WString :=
  fwprintf_s B "[%d-%02d-%02d %02d:%02d:%02d] -> [Notice] Old log file was deleted.\n".toList
    (TimeArguments TimeStructure)

/-- The time stamp printed in front of the main message. -/
def TimeStamp (B : Build) (TimeStructure : tm) : WString :=
  fwprintf_s B "[%d-%02d-%02d %02d:%02d:%02d] -> ".toList (TimeArguments TimeStructure)

/-- The variable arguments handed over with the message: the four-way choice
on `Line > 0` and `ErrorCode != 0` made at both sinks. -/
def MessageArguments (ErrorCode : Int) (Line : Nat) : List Int :=
  if Line > 0 ∧ ErrorCode ≠ 0 then [ErrorCode, (Line : Int)]
  else if Line > 0 then [(Line : Int)]
  else if ErrorCode ≠ 0 then [ErrorCode]
  else []

/-- The text of the main message as a sink prints it, `none` when the message
is not a format that `vfwprintf_s` describes with these arguments. -/
def PrintedMessage (Message : WString) (ErrorCode : Int) (Line : Nat) : Option WString :=
  vfwprintf_s .Text Message (MessageArguments ErrorCode Line)

/-! ## ErrorCodeToMessage -/

/-- Print more details about an error code: nothing for code 0, otherwise
`": "` followed by the text of the platform and `"[%d]"`, or by `"%d"` alone
when the lookup fails.  The lookup is made for `(DWORD)ErrorCode` on Windows
and for `(int)ErrorCode` elsewhere.  On Windows the last two characters of the
message built so far (the blank and the period ending the system text) are
removed before `"[%d]"` is appended. -/
def ErrorCodeToMessage (B : Build) (ErrorCode : Int) (Message : WString) : WString :=
  if ErrorCode = 0 then Message
  else
    let Message := Message ++ ": ".toList
    match B.platform with
    | .PLATFORM_WIN =>
      match B.FormatMessageW (castUnsigned ErrorCode) with
      | none => Message ++ "%d".toList
      | some InnerMessage => (Message ++ InnerMessage).dropLast.dropLast ++ "[%d]".toList
    | _ =>
      match (B.strerror (castInt ErrorCode)).bind B.MBSToWCSString with
      | none => Message ++ "%d".toList
      | some InnerMessage => Message ++ InnerMessage ++ "[%d]".toList

/-! ## The double backslash loop -/

/-- The position returned by `find(L"\\\\")`: the first index at which two
backslashes stand next to each other, `none` for `npos`. -/
def findDoubleBackslash : WString → Option Nat
  | [] => none
  | [_] => none
  | a :: b :: rest =>
    if a = '\\' ∧ b = '\\' then some 0
    else (findDoubleBackslash (b :: rest)).map (fun i => i + 1)

/-- A position found by `findDoubleBackslash` lies inside the string. -/
theorem findDoubleBackslash_lt :
    ∀ (s : WString) (i : Nat), findDoubleBackslash s = some i → i + 1 < s.length
  | [], _, h => by simp [findDoubleBackslash] at h
  | [_], _, h => by simp [findDoubleBackslash] at h
  | a :: b :: rest, i, h => by
    unfold findDoubleBackslash at h
    split at h
    · cases h
      simp
    · cases hr : findDoubleBackslash (b :: rest) with
      | none => simp [hr] at h
      | some j =>
        simp [hr] at h
        have := findDoubleBackslash_lt (b :: rest) j hr
        simp at this ⊢
        omega

/-- The loop `while (find(L"\\\\") != npos) erase(find(L"\\\\"), wcslen(L"\\"))`:
as long as two backslashes stand next to each other, one character is erased
at the first such position.  Each round shortens the string, so the loop
ends. -/
def DeleteDoubleBackslash (s : WString) : WString :=
  match h : findDoubleBackslash s with
  | none => s
  | some i => DeleteDoubleBackslash (s.eraseIdx i)
termination_by s.length
decreasing_by
  have hlt := findDoubleBackslash_lt s i h
  rw [List.length_eraseIdx]
  split <;> omega

/-- Every run of backslashes shortened to one backslash, in a single pass from
the left: the description of the path normalization, stated independently of
the loop. -/
def collapseBackslashes : WString → WString
  | [] => []
  | [a] => [a]
  | a :: b :: rest =>
    if a = '\\' ∧ b = '\\' then collapseBackslashes (b :: rest)
    else a :: collapseBackslashes (b :: rest)

/-! ## PrintError -/

/-- The string `FileNameString` built at the start of `PrintError`: empty
without a file name, otherwise `" in "` and the file name, with double
backslashes deleted on Windows, and `"(Line %u)"` when `Line > 0`.  The
result is `none` where `PrintError` returns false: a file name that is given
but empty. -/
def FileNameString (B : Build) (FileName : Option WString) (Line : Nat) : Option WString :=
  match FileName with
  | none => some []
  | some FileName =>
    if FileName = [] then none
    else
      let FileNameString := " in ".toList ++ FileName
      let FileNameString :=
        match B.platform with
        | .PLATFORM_WIN => DeleteDoubleBackslash FileNameString
        | _ => FileNameString
      some (if Line > 0 then FileNameString ++ "(Line %u)".toList else FileNameString)

/-- How the part of `PrintError` before the sinks ends: with a returned value
and nothing printed, or with the message handed to `WriteScreenAndFile`. -/
inductive Composed
  | Return (value : Bool)
  | Write (ErrorMessage : WString)
deriving DecidableEq, Repr

/-- The common end of the cases of the switch that fall through to the bottom
of `PrintError`: the tag, the message, the error code details, the file name
string and `".\n"`. -/
def FinishMessage (B : Build) (Tag : WString) (Message : WString) (ErrorCode : Int)
    (FileNameString : WString) : Composed :=
  .Write (ErrorCodeToMessage B ErrorCode (Tag ++ Message) ++ FileNameString ++ ".\n".toList)

/-- The body of `PrintError` up to the call of `WriteScreenAndFile`: the level,
message and file name checks, then the switch on the error type. -/
def ComposeError (B : Build) (Parameter : ConfigurationTable) (ErrorLevel ErrorType : Nat)
    (Message : Option WString) (ErrorCode : Int) (FileName : Option WString) (Line : Nat) :
    Composed :=
  if Parameter.PrintLogLevel = LOG_LEVEL_0 ∨ ErrorLevel > Parameter.PrintLogLevel then
    .Return false
  else
    match Message with
    | none => .Return false
    | some Message =>
      if Message = [] then .Return false
      else
        match FileNameString B FileName Line with
        | none => .Return false
        | some FileNameString =>
          if ErrorType = LOG_MESSAGE_NOTICE then
            FinishMessage B "[Notice] ".toList Message ErrorCode FileNameString
          else if ErrorType = LOG_ERROR_SYSTEM then
            FinishMessage B "[System Error] ".toList Message ErrorCode FileNameString
          else if ErrorType = LOG_ERROR_PARAMETER then
            FinishMessage B "[Parameter Error] ".toList Message ErrorCode FileNameString
          else if ErrorType = LOG_ERROR_IPFILTER then
            FinishMessage B "[IPFilter Error] ".toList Message ErrorCode FileNameString
          else if ErrorType = LOG_ERROR_HOSTS then
            FinishMessage B "[Hosts Error] ".toList Message ErrorCode FileNameString
          else if ErrorType = LOG_ERROR_NETWORK then
            if Parameter.PrintLogLevel < LOG_LEVEL_3 ∧
                (ErrorCode = B.WSAENETUNREACH ∨ ErrorCode = B.WSAEHOSTUNREACH) then
              .Return true
            else FinishMessage B "[Network Error] ".toList Message ErrorCode FileNameString
          else if B.ENABLE_PCAP = true ∧ ErrorType = LOG_ERROR_PCAP then
            .Write ("[Pcap Error] ".toList ++ Message)
          else if B.ENABLE_LIBSODIUM = true ∧ ErrorType = LOG_ERROR_DNSCURVE then
            FinishMessage B "[DNSCurve Error] ".toList Message ErrorCode FileNameString
          else if ErrorType = LOG_ERROR_SOCKS then
            FinishMessage B "[SOCKS Error] ".toList Message ErrorCode FileNameString
          else if ErrorType = LOG_ERROR_HTTP then
            FinishMessage B "[HTTP Error] ".toList Message ErrorCode FileNameString
          else .Return false

/-- The tag that the switch of `PrintError` appends for an error type, `none`
for a value that falls to the default case of this build. -/
def ErrorTypeTag (B : Build) (ErrorType : Nat) : Option WString :=
  if ErrorType = LOG_MESSAGE_NOTICE then some "[Notice] ".toList
  else if ErrorType = LOG_ERROR_SYSTEM then some "[System Error] ".toList
  else if ErrorType = LOG_ERROR_PARAMETER then some "[Parameter Error] ".toList
  else if ErrorType = LOG_ERROR_IPFILTER then some "[IPFilter Error] ".toList
  else if ErrorType = LOG_ERROR_HOSTS then some "[Hosts Error] ".toList
  else if ErrorType = LOG_ERROR_NETWORK then some "[Network Error] ".toList
  else if B.ENABLE_PCAP = true ∧ ErrorType = LOG_ERROR_PCAP then some "[Pcap Error] ".toList
  else if B.ENABLE_LIBSODIUM = true ∧ ErrorType = LOG_ERROR_DNSCURVE then
    some "[DNSCurve Error] ".toList
  else if ErrorType = LOG_ERROR_SOCKS then some "[SOCKS Error] ".toList
  else if ErrorType = LOG_ERROR_HTTP then some "[HTTP Error] ".toList
  else none

/-! ## WriteScreenAndFile -/

/-- Whether the block "Print to screen" runs: `IsConsole` on Windows, not
`IsDaemon` on Linux, and always on the third target, where neither condition
is compiled in. -/
def ScreenActive (B : Build) (G : Process) : Bool :=
  match B.platform with
  | .PLATFORM_WIN => G.IsConsole
  | .PLATFORM_LINUX => !G.IsDaemon
  | .PLATFORM_MACX => true

/-- The size of the log file in bytes, its text taken as UTF-8. -/
def FileSize (content : WString) : Nat := (content.map Char.utf8Size).sum

/-- The cast `(off_t)Parameter.LogMaxSize` to a signed 64-bit integer. -/
def toOffT (n : Nat) : Int :=
  if n % 2 ^ 64 < 2 ^ 63 then ((n % 2 ^ 64 : Nat) : Int) else ((n % 2 ^ 64 : Nat) : Int) - 2 ^ 64

/-- The condition under which the block "Check whole file size" deletes the
log file: the file exists and, on Windows, is not empty and has at least
`LogMaxSize` bytes; elsewhere its size is at least `(off_t)LogMaxSize`. -/
def FileTooLarge (B : Build) (Parameter : ConfigurationTable) (ErrorLog : Option WString) : Bool :=
  match ErrorLog with
  | none => false
  | some content =>
    match B.platform with
    | .PLATFORM_WIN => decide (FileSize content > 0 ∧ FileSize content ≥ Parameter.LogMaxSize)
    | _ => decide ((FileSize content : Int) ≥ toOffT Parameter.LogMaxSize)

/-- The block "Print to screen" of `WriteScreenAndFile`: when the screen is
active, the startup line if a startup time was taken, the time stamp and the
main message go to the standard error stream.  The result is the process data
afterwards and the events of the block. -/
def ScreenSink (B : Build) (G : Process) (LogStartupTime : Int) (TimeStructure : tm)
    (MainMessage : WString) : Process × List Event :=
  if ScreenActive B G = true then
    ({ G with Screen := G.Screen
        ++ (if LogStartupTime > 0 then StartupLine B TimeStructure else [])
        ++ TimeStamp B TimeStructure ++ MainMessage },
      (if LogStartupTime > 0 then [Event.ScreenStartup] else []) ++ [Event.ScreenMessage])
  else (G, [])

/-- The blocks "Check whole file size" and "Write to file" of
`WriteScreenAndFile`: a log file that is too large is deleted, and the call
returns false if that fails; then the file is opened for appending, and the
startup line if a startup time was taken, the notice if the file was just
deleted, the time stamp and the main message are written; the call returns
false if the file cannot be opened. -/
def FileSink (B : Build) (Parameter : ConfigurationTable) (os : SystemCalls) (G : Process)
    (LogStartupTime : Int) (TimeStructure : tm) (MainMessage : WString) : Outcome :=
  if FileTooLarge B Parameter G.ErrorLog = true ∧ os.remove = false then
    ⟨false, G, [Event.FileDeleteFailed]⟩
  else
    let IsFileDeleted : Bool := FileTooLarge B Parameter G.ErrorLog
    let G3 : Process := if IsFileDeleted = true then { G with ErrorLog := none } else G
    let DeleteEvents : List Event := if IsFileDeleted = true then [Event.FileDeleted] else []
    if os.fopen = true then
      ⟨true,
        { G3 with ErrorLog := some (G3.ErrorLog.getD []
            ++ (if LogStartupTime > 0 then StartupLine B TimeStructure else [])
            ++ (if IsFileDeleted = true then OldLogDeletedLine B TimeStructure else [])
            ++ TimeStamp B TimeStructure ++ MainMessage) },
        DeleteEvents
          ++ (if LogStartupTime > 0 then [Event.FileStartup] else [])
          ++ (if IsFileDeleted = true then [Event.FileOldDeleted] else [])
          ++ [Event.FileMessage]⟩
    else ⟨false, G3, DeleteEvents ++ [Event.FileOpenFailed]⟩

/-- The screen block followed by the file blocks: the returned value and the
process data are those of the file blocks, run on what the screen block
left. -/
def RunSinks (B : Build) (Parameter : ConfigurationTable) (os : SystemCalls) (G : Process)
    (LogStartupTime : Int) (TimeStructure : tm) (MainMessage : WString) : Outcome :=
  let screen := ScreenSink B G LogStartupTime TimeStructure MainMessage
  let file := FileSink B Parameter os screen.1 LogStartupTime TimeStructure MainMessage
  ⟨file.result, file.after, screen.2 ++ file.events⟩

/-- Write to screen and file: the local time is taken (the call returns false
if that fails), the startup time is read and cleared, then the screen block
and the file blocks run with the same message and arguments. -/
def WriteScreenAndFile (B : Build) (Parameter : ConfigurationTable) (os : SystemCalls)
    (G : Process) (Message : WString) (ErrorCode : Int) (Line : Nat) : Outcome :=
  match os.localtime with
  | none => ⟨false, G, []⟩
  | some TimeStructure =>
    let LogStartupTime : Int := if G.StartupTime > 0 then G.StartupTime else 0
    let G1 : Process := if G.StartupTime > 0 then { G with StartupTime := 0 } else G
    RunSinks B Parameter os G1 LogStartupTime TimeStructure
      (fwprintf_s B Message (MessageArguments ErrorCode Line))

/-- Print errors to log file. -/
def PrintError (B : Build) (Parameter : ConfigurationTable) (os : SystemCalls) (G : Process)
    (ErrorLevel ErrorType : Nat) (Message : Option WString) (ErrorCode : Int)
    (FileName : Option WString) (Line : Nat) : Outcome :=
  match ComposeError B Parameter ErrorLevel ErrorType Message ErrorCode FileName Line with
  | .Return value => ⟨value, G, []⟩
  | .Write ErrorMessage => WriteScreenAndFile B Parameter os G ErrorMessage ErrorCode Line

/-! ## Runs of calls -/

/-- The description of an error code that ends up in the message: on Windows
the system text without its last two characters (it must have that many), on
the other targets the transcoded text of `strerror`. -/
def Description (B : Build) (ErrorCode : Int) : Option WString :=
  match B.platform with
  | .PLATFORM_WIN =>
    (B.FormatMessageW (castUnsigned ErrorCode)).bind
      (fun raw => if 2 ≤ raw.length then some raw.dropLast.dropLast else none)
  | _ => (B.strerror (castInt ErrorCode)).bind B.MBSToWCSString

/-- The file name as it is shown: with every run of backslashes shortened to
one on Windows, unchanged elsewhere. -/
def NormalizedPath (B : Build) (FileName : WString) : WString :=
  match B.platform with
  | .PLATFORM_WIN => collapseBackslashes FileName
  | _ => FileName

/-- The location suffix of a printed line: nothing without a file name,
otherwise `" in "`, the normalized path and, when the line is positive,
`"(Line n)"`. -/
def LocationSuffix (B : Build) (FileName : Option WString) (Line : Nat) : WString :=
  match FileName with
  | none => []
  | some f =>
    " in ".toList ++ NormalizedPath B f
      ++ (if Line > 0 then "(Line ".toList ++ decimal Line ++ ")".toList else [])

/-! ## Sample platforms -/

/-- A Linux build with both optional features, the errno values of Linux for
the two unreachable errors, and two entries of the `strerror` table; a format
outside `vfwprintf_s` is taken to write nothing. -/
def LinuxBuild : Build where
  platform := .PLATFORM_LINUX
  ENABLE_PCAP := true
  ENABLE_LIBSODIUM := true
  WSAENETUNREACH := 101
  WSAEHOSTUNREACH := 113
  FormatMessageW := fun _ => none
  strerror := fun c =>
    if c = 2 then some "No such file or directory".toList
    else if c = 13 then some "Permission denied".toList
    else none
  MBSToWCSString := fun s => some s
  OtherOutput := fun _ _ => []

/-- A Windows build with both optional features, the Winsock values of the two
unreachable errors, and two system messages as `FormatMessageW` returns them
with `FORMAT_MESSAGE_IGNORE_INSERTS` and `FORMAT_MESSAGE_MAX_WIDTH_MASK`:
the insert sequence `%1` is passed through and the text ends with a period and
a blank; a format outside `vfwprintf_s` is taken to write nothing. -/
def WindowsBuild : Build where
  platform := .PLATFORM_WIN
  ENABLE_PCAP := true
  ENABLE_LIBSODIUM := true
  WSAENETUNREACH := 10051
  WSAEHOSTUNREACH := 10065
  FormatMessageW := fun c =>
    if c = 2 then some "The system cannot find the file specified. ".toList
    else if c = 193 then some "%1 is not a valid Win32 application. ".toList
    else none
  strerror := fun _ => none
  MBSToWCSString := fun s => some s
  OtherOutput := fun _ _ => []

/-- A local time: 2 January 2016, 03:04:05. -/
def SampleTime : tm := ⟨116, 0, 2, 3, 4, 5⟩

/-- A process that has printed before and runs in the background: no startup
time pending, no console, nothing on the screen yet, no log file. -/
def QuietProcess : Process := ⟨0, false, true, [], none⟩

/-- A process right after its start: startup time set, running in the
foreground, nothing printed yet and no log file. -/
def FreshProcess : Process := ⟨1451703845, true, false, [], none⟩

/-! ## The switch on the error type -/

/-- Once the level, message and file name checks are passed, the switch of
`PrintError` does the following: an error type without a tag returns false;
a Network error with an unreachable code below level 3 returns true; a Pcap
error hands over the tag and the message alone; every other type hands over
the finished message. -/
theorem ComposeError_switch (B : Build) (Parameter : ConfigurationTable)
    (ErrorLevel ErrorType : Nat) (Message : WString) (ErrorCode : Int)
    (FileName : Option WString) (Line : Nat) (f : WString)
    (h0 : Parameter.PrintLogLevel ≠ 0) (hle : ErrorLevel ≤ Parameter.PrintLogLevel)
    (hm : Message ≠ []) (hf : FileNameString B FileName Line = some f) :
    ComposeError B Parameter ErrorLevel ErrorType (some Message) ErrorCode FileName Line =
      match ErrorTypeTag B ErrorType with
      | none => .Return false
      | some Tag =>
        if ErrorType = LOG_ERROR_NETWORK ∧ Parameter.PrintLogLevel < LOG_LEVEL_3 ∧
            (ErrorCode = B.WSAENETUNREACH ∨ ErrorCode = B.WSAEHOSTUNREACH) then .Return true
        else if ErrorType = LOG_ERROR_PCAP then .Write (Tag ++ Message)
        else FinishMessage B Tag Message ErrorCode f := by
  have hlevel :
      ¬ (Parameter.PrintLogLevel = LOG_LEVEL_0 ∨ ErrorLevel > Parameter.PrintLogLevel) := by
    simp only [LOG_LEVEL_0]
    omega
  unfold ComposeError ErrorTypeTag
  rw [if_neg hlevel]
  dsimp only
  rw [if_neg hm, hf]
  dsimp only
  by_cases h1 : ErrorType = LOG_MESSAGE_NOTICE
  · rw [if_pos h1, if_pos h1]
    subst h1
    simp [LOG_MESSAGE_NOTICE, LOG_ERROR_NETWORK, LOG_ERROR_PCAP]
  rw [if_neg h1, if_neg h1]
  by_cases h2 : ErrorType = LOG_ERROR_SYSTEM
  · rw [if_pos h2, if_pos h2]
    subst h2
    simp [LOG_ERROR_SYSTEM, LOG_ERROR_NETWORK, LOG_ERROR_PCAP]
  rw [if_neg h2, if_neg h2]
  by_cases h3 : ErrorType = LOG_ERROR_PARAMETER
  · rw [if_pos h3, if_pos h3]
    subst h3
    simp [LOG_ERROR_PARAMETER, LOG_ERROR_NETWORK, LOG_ERROR_PCAP]
  rw [if_neg h3, if_neg h3]
  by_cases h4 : ErrorType = LOG_ERROR_IPFILTER
  · rw [if_pos h4, if_pos h4]
    subst h4
    simp [LOG_ERROR_IPFILTER, LOG_ERROR_NETWORK, LOG_ERROR_PCAP]
  rw [if_neg h4, if_neg h4]
  by_cases h5 : ErrorType = LOG_ERROR_HOSTS
  · rw [if_pos h5, if_pos h5]
    subst h5
    simp [LOG_ERROR_HOSTS, LOG_ERROR_NETWORK, LOG_ERROR_PCAP]
  rw [if_neg h5, if_neg h5]
  by_cases h6 : ErrorType = LOG_ERROR_NETWORK
  · rw [if_pos h6, if_pos h6]
    subst h6
    simp [LOG_ERROR_NETWORK, LOG_ERROR_NETWORK, LOG_ERROR_PCAP]
  rw [if_neg h6, if_neg h6]
  by_cases h7 : B.ENABLE_PCAP = true ∧ ErrorType = LOG_ERROR_PCAP
  · rw [if_pos h7, if_pos h7]
    obtain ⟨_, h7⟩ := h7
    subst h7
    simp [LOG_ERROR_PCAP, LOG_ERROR_NETWORK, LOG_ERROR_PCAP]
  rw [if_neg h7, if_neg h7]
  by_cases h8 : B.ENABLE_LIBSODIUM = true ∧ ErrorType = LOG_ERROR_DNSCURVE
  · rw [if_pos h8, if_pos h8]
    obtain ⟨_, h8⟩ := h8
    subst h8
    simp [LOG_ERROR_DNSCURVE, LOG_ERROR_NETWORK, LOG_ERROR_PCAP]
  rw [if_neg h8, if_neg h8]
  by_cases h9 : ErrorType = LOG_ERROR_SOCKS
  · rw [if_pos h9, if_pos h9]
    subst h9
    simp [LOG_ERROR_SOCKS, LOG_ERROR_NETWORK, LOG_ERROR_PCAP]
  rw [if_neg h9, if_neg h9]
  by_cases h10 : ErrorType = LOG_ERROR_HTTP
  · rw [if_pos h10, if_pos h10]
    subst h10
    simp [LOG_ERROR_HTTP, LOG_ERROR_NETWORK, LOG_ERROR_PCAP]
  rw [if_neg h10, if_neg h10]

/-- A call at level 0 or above the configured level returns false at once. -/
theorem ComposeError_level (B : Build) (Parameter : ConfigurationTable)
    (ErrorLevel ErrorType : Nat) (Message : Option WString) (ErrorCode : Int)
    (FileName : Option WString) (Line : Nat)
    (h : Parameter.PrintLogLevel = 0 ∨ ErrorLevel > Parameter.PrintLogLevel) :
    ComposeError B Parameter ErrorLevel ErrorType Message ErrorCode FileName Line
      = .Return false := by
  unfold ComposeError
  rw [if_pos (by simpa only [LOG_LEVEL_0] using h)]

/-- A call without a message, or with an empty one, returns false. -/
theorem ComposeError_no_message (B : Build) (Parameter : ConfigurationTable)
    (ErrorLevel ErrorType : Nat) (Message : Option WString) (ErrorCode : Int)
    (FileName : Option WString) (Line : Nat) (h : Message = none ∨ Message = some []) :
    ComposeError B Parameter ErrorLevel ErrorType Message ErrorCode FileName Line
      = .Return false := by
  unfold ComposeError
  by_cases hlevel : Parameter.PrintLogLevel = LOG_LEVEL_0 ∨ ErrorLevel > Parameter.PrintLogLevel
  · rw [if_pos hlevel]
  · rw [if_neg hlevel]
    rcases h with h | h
    · subst h
      rfl
    · subst h
      rfl

/-- A call whose file name string cannot be built (the file name is given but
empty) returns false. -/
theorem ComposeError_no_file_name_string (B : Build) (Parameter : ConfigurationTable)
    (ErrorLevel ErrorType : Nat) (Message : Option WString) (ErrorCode : Int)
    (FileName : Option WString) (Line : Nat) (h : FileNameString B FileName Line = none) :
    ComposeError B Parameter ErrorLevel ErrorType Message ErrorCode FileName Line
      = .Return false := by
  unfold ComposeError
  by_cases hlevel : Parameter.PrintLogLevel = LOG_LEVEL_0 ∨ ErrorLevel > Parameter.PrintLogLevel
  · rw [if_pos hlevel]
  · rw [if_neg hlevel]
    cases Message with
    | none => rfl
    | some m =>
      dsimp only
      by_cases hm : m = []
      · rw [if_pos hm]
      · rw [if_neg hm, h]

/-- The file name string exists unless the file name is given and empty. -/
theorem FileNameString_isSome (B : Build) (FileName : Option WString) (Line : Nat)
    (h : FileName ≠ some []) : ∃ f, FileNameString B FileName Line = some f := by
  cases FileName with
  | none => exact ⟨[], rfl⟩
  | some n =>
    have hn : n ≠ [] := fun hn => h (by rw [hn])
    unfold FileNameString
    dsimp only
    rw [if_neg hn]
    exact ⟨_, rfl⟩

/-! ## The double backslash loop and the single pass -/

/-- Unfolding of the search on a string of at least two characters. -/
theorem findDoubleBackslash_cons_cons (a b : Char) (rest : WString) :
    findDoubleBackslash (a :: b :: rest) =
      if a = '\\' ∧ b = '\\' then some 0
      else (findDoubleBackslash (b :: rest)).map (fun i => i + 1) := by
  rw [findDoubleBackslash]

/-- Unfolding of the single pass on a string of at least two characters. -/
theorem collapseBackslashes_cons_cons (a b : Char) (rest : WString) :
    collapseBackslashes (a :: b :: rest) =
      if a = '\\' ∧ b = '\\' then collapseBackslashes (b :: rest)
      else a :: collapseBackslashes (b :: rest) := by
  rw [collapseBackslashes]

/-- Where the search finds nothing, the single pass changes nothing. -/
theorem collapseBackslashes_of_find_none :
    ∀ s : WString, findDoubleBackslash s = none → collapseBackslashes s = s
  | [], _ => rfl
  | [_], _ => rfl
  | a :: b :: rest, h => by
    rw [findDoubleBackslash_cons_cons] at h
    rw [collapseBackslashes_cons_cons]
    by_cases hab : a = '\\' ∧ b = '\\'
    · rw [if_pos hab] at h
      cases h
    · rw [if_neg hab] at h
      rw [if_neg hab]
      have hr : findDoubleBackslash (b :: rest) = none := by
        cases hf : findDoubleBackslash (b :: rest) with
        | none => rfl
        | some j => rw [hf] at h; cases h
      rw [collapseBackslashes_of_find_none (b :: rest) hr]

/-- Erasing one character at the position found does not change the result of
the single pass. -/
theorem collapseBackslashes_eraseIdx :
    ∀ (s : WString) (i : Nat), findDoubleBackslash s = some i →
      collapseBackslashes (s.eraseIdx i) = collapseBackslashes s
  | [], _, h => by cases h
  | [_], _, h => by cases h
  | a :: b :: rest, i, h => by
    rw [findDoubleBackslash_cons_cons] at h
    by_cases hab : a = '\\' ∧ b = '\\'
    · rw [if_pos hab] at h
      cases h
      rw [collapseBackslashes_cons_cons, if_pos hab]
      rfl
    · rw [if_neg hab] at h
      cases hf : findDoubleBackslash (b :: rest) with
      | none => rw [hf] at h; cases h
      | some j =>
        rw [hf] at h
        cases h
        have ih := collapseBackslashes_eraseIdx (b :: rest) j hf
        have hlt := findDoubleBackslash_lt (b :: rest) j hf
        rw [collapseBackslashes_cons_cons, if_neg hab, List.eraseIdx_cons_succ]
        -- the erased string still starts with `a` and a character equal to `b`
        cases j with
        | zero =>
          -- `b` and the head of `rest` are both backslashes
          cases rest with
          | nil => simp at hlt
          | cons c rest2 =>
            rw [findDoubleBackslash_cons_cons] at hf
            by_cases hbc : b = '\\' ∧ c = '\\'
            · rw [List.eraseIdx_cons_zero]
              rw [List.eraseIdx_cons_zero] at ih
              have hac : ¬ (a = '\\' ∧ c = '\\') := fun hh => hab ⟨hh.1, hbc.1⟩
              rw [collapseBackslashes_cons_cons, if_neg hac, ih]
            · rw [if_neg hbc] at hf
              cases hg : findDoubleBackslash (c :: rest2) with
              | none => rw [hg] at hf; cases hf
              | some k => rw [hg] at hf; cases hf
        | succ k =>
          rw [List.eraseIdx_cons_succ] at ih ⊢
          rw [collapseBackslashes_cons_cons, if_neg hab, ih]

/-- Refinement, by induction on a bound of the length: the loop computes the
single pass. -/
theorem DeleteDoubleBackslash_eq_collapse_bounded :
    ∀ (n : Nat) (s : WString), s.length ≤ n → DeleteDoubleBackslash s = collapseBackslashes s
  | 0, s, hn => by
    have hs : s = [] := List.length_eq_zero.mp (Nat.le_zero.mp hn)
    subst hs
    rw [DeleteDoubleBackslash]
    rfl
  | n + 1, s, hn => by
    rw [DeleteDoubleBackslash]
    split
    · rename_i hf
      exact (collapseBackslashes_of_find_none s hf).symm
    · rename_i i hf
      have hlt := findDoubleBackslash_lt s i hf
      have hlen : (s.eraseIdx i).length ≤ n := by
        rw [List.length_eraseIdx]
        split <;> omega
      rw [DeleteDoubleBackslash_eq_collapse_bounded n _ hlen,
        collapseBackslashes_eraseIdx s i hf]

/-- Refinement: the loop computes the single pass. -/
theorem DeleteDoubleBackslash_eq_collapse (s : WString) :
    DeleteDoubleBackslash s = collapseBackslashes s :=
  DeleteDoubleBackslash_eq_collapse_bounded s.length s (Nat.le_refl _)

/-- The single pass leaves nothing for the search to find. -/
theorem findDoubleBackslash_collapse :
    ∀ s : WString, findDoubleBackslash (collapseBackslashes s) = none
  | [] => rfl
  | [_] => rfl
  | a :: b :: rest => by
    have ih := findDoubleBackslash_collapse (b :: rest)
    rw [collapseBackslashes_cons_cons]
    by_cases hab : a = '\\' ∧ b = '\\'
    · rw [if_pos hab]
      exact ih
    · rw [if_neg hab]
      -- the pass over `b :: rest` starts with `b`
      cases rest with
      | nil =>
        rw [show collapseBackslashes [b] = [b] from rfl, findDoubleBackslash_cons_cons,
          if_neg hab]
        rfl
      | cons c rest2 =>
        rw [collapseBackslashes_cons_cons] at ih ⊢
        by_cases hbc : b = '\\' ∧ c = '\\'
        · rw [if_pos hbc] at ih ⊢
          -- `collapseBackslashes (c :: rest2)` starts with `c`, a backslash, so `a` is none
          have ha : a ≠ '\\' := fun ha => hab ⟨ha, hbc.1⟩
          cases hcs : collapseBackslashes (c :: rest2) with
          | nil => rfl
          | cons d more =>
            rw [hcs] at ih
            rw [findDoubleBackslash_cons_cons, if_neg (fun hh => ha hh.1), ih]
            rfl
        · rw [if_neg hbc] at ih ⊢
          rw [findDoubleBackslash_cons_cons, if_neg hab, ih]
          rfl

/-- A character other than a backslash in front is kept by the single pass. -/
theorem collapseBackslashes_cons_of_ne (c : Char) (s : WString) (hc : c ≠ '\\') :
    collapseBackslashes (c :: s) = c :: collapseBackslashes s := by
  cases s with
  | nil => rfl
  | cons b rest => rw [collapseBackslashes_cons_cons, if_neg (fun h => hc h.1)]

/-- A character other than a backslash in front adds nothing to find. -/
theorem findDoubleBackslash_cons_of_ne (c : Char) (s : WString) (hc : c ≠ '\\')
    (hs : findDoubleBackslash s = none) : findDoubleBackslash (c :: s) = none := by
  cases s with
  | nil => rfl
  | cons b rest =>
    rw [findDoubleBackslash_cons_cons, if_neg (fun h => hc h.1), hs]
    rfl

/-- Nothing is found in a string without backslashes. -/
theorem findDoubleBackslash_of_no_backslash :
    ∀ t : WString, (∀ x ∈ t, x ≠ '\\') → findDoubleBackslash t = none
  | [], _ => rfl
  | c :: t, h =>
    findDoubleBackslash_cons_of_ne c t (h c (List.mem_cons_self c t))
      (findDoubleBackslash_of_no_backslash t (fun x hx => h x (List.mem_cons_of_mem c hx)))

/-- Appending a string without backslashes adds nothing to find. -/
theorem findDoubleBackslash_append :
    ∀ (s t : WString), findDoubleBackslash s = none → (∀ x ∈ t, x ≠ '\\') →
      findDoubleBackslash (s ++ t) = none
  | [], t, _, ht => findDoubleBackslash_of_no_backslash t ht
  | [a], t, _, ht => by
    cases t with
    | nil => rfl
    | cons b t2 =>
      have hb : b ≠ '\\' := ht b (List.mem_cons_self b t2)
      rw [List.singleton_append, findDoubleBackslash_cons_cons, if_neg (fun h => hb h.2),
        findDoubleBackslash_of_no_backslash (b :: t2) ht]
      rfl
  | a :: b :: rest, t, hs, ht => by
    rw [findDoubleBackslash_cons_cons] at hs
    by_cases hab : a = '\\' ∧ b = '\\'
    · rw [if_pos hab] at hs
      cases hs
    · rw [if_neg hab] at hs
      have hr : findDoubleBackslash (b :: rest) = none := by
        cases hf : findDoubleBackslash (b :: rest) with
        | none => rfl
        | some j => rw [hf] at hs; cases hs
      have ih := findDoubleBackslash_append (b :: rest) t hr ht
      rw [List.cons_append] at ih
      rw [List.cons_append, List.cons_append, findDoubleBackslash_cons_cons, if_neg hab, ih]
      rfl

/-- Where the search finds nothing, no two neighbours are both backslashes. -/
theorem no_adjacent_of_find_none :
    ∀ (r : WString), findDoubleBackslash r = none →
      ∀ i : Nat, ¬ (r[i]? = some '\\' ∧ r[i + 1]? = some '\\')
  | [], _, i, h => by simp at h
  | [_], _, i, h => by simp at h
  | a :: b :: rest, hr, i, h => by
    rw [findDoubleBackslash_cons_cons] at hr
    by_cases hab : a = '\\' ∧ b = '\\'
    · rw [if_pos hab] at hr
      cases hr
    · rw [if_neg hab] at hr
      have hrest : findDoubleBackslash (b :: rest) = none := by
        cases hf : findDoubleBackslash (b :: rest) with
        | none => rfl
        | some j => rw [hf] at hr; cases hr
      cases i with
      | zero =>
        simp only [List.getElem?_cons_zero, List.getElem?_cons_succ, Option.some.injEq,
          Nat.zero_add] at h
        exact hab h
      | succ j =>
        rw [List.getElem?_cons_succ, List.getElem?_cons_succ] at h
        exact no_adjacent_of_find_none (b :: rest) hrest j h

/-- The single pass keeps every character other than a backslash, in order. -/
theorem collapseBackslashes_filter :
    ∀ s : WString, (collapseBackslashes s).filter (fun c => decide (c ≠ '\\'))
      = s.filter (fun c => decide (c ≠ '\\'))
  | [] => rfl
  | [_] => rfl
  | a :: b :: rest => by
    have ih := collapseBackslashes_filter (b :: rest)
    rw [collapseBackslashes_cons_cons]
    by_cases hab : a = '\\' ∧ b = '\\'
    · rw [if_pos hab, ih]
      conv_rhs => rw [List.filter_cons_of_neg (by simp [hab.1])]
    · rw [if_neg hab, List.filter_cons, ih]
      conv_rhs => rw [List.filter_cons]

/-! ## Path normalization -/

/-- C6. Path normalization on a Windows build: for every file name `p` the
loop that erases one character at the first double backslash ends (it is a
total function: each round shortens the string) and turns `" in " ++ p` into
`" in "` followed by `p` with every run of backslashes shortened to a single
backslash, all other characters being kept in their order; for a non-empty
`p` that is the file name string, followed by the line placeholder when
`Line > 0`; and no two neighbouring characters of it are both backslashes. -/
theorem FileNameString_windows (B : Build) (p : WString) (Line : Nat)
    (hwin : B.platform = .PLATFORM_WIN) :
    DeleteDoubleBackslash (" in ".toList ++ p) = " in ".toList ++ collapseBackslashes p ∧
    (p ≠ [] → FileNameString B (some p) Line
      = some (" in ".toList ++ collapseBackslashes p
          ++ (if Line > 0 then "(Line %u)".toList else []))) ∧
    (collapseBackslashes p).filter (fun c => decide (c ≠ '\\'))
      = p.filter (fun c => decide (c ≠ '\\')) ∧
    ∀ i : Nat,
      ¬ ((" in ".toList ++ collapseBackslashes p
            ++ (if Line > 0 then "(Line %u)".toList else []))[i]? = some '\\' ∧
          (" in ".toList ++ collapseBackslashes p
            ++ (if Line > 0 then "(Line %u)".toList else []))[i + 1]? = some '\\') := by
  have hin : DeleteDoubleBackslash (" in ".toList ++ p)
      = " in ".toList ++ collapseBackslashes p := by
    rw [DeleteDoubleBackslash_eq_collapse]
    show collapseBackslashes (' ' :: 'i' :: 'n' :: ' ' :: p)
      = ' ' :: 'i' :: 'n' :: ' ' :: collapseBackslashes p
    rw [collapseBackslashes_cons_of_ne _ _ (by decide),
      collapseBackslashes_cons_of_ne _ _ (by decide),
      collapseBackslashes_cons_of_ne _ _ (by decide),
      collapseBackslashes_cons_of_ne _ _ (by decide)]
  have htail : ∀ x ∈ (if Line > 0 then "(Line %u)".toList else []), x ≠ '\\' := by
    split
    · decide
    · intro x hx
      cases hx
  have hfind : findDoubleBackslash (" in ".toList ++ collapseBackslashes p
      ++ (if Line > 0 then "(Line %u)".toList else [])) = none := by
    apply findDoubleBackslash_append _ _ _ htail
    show findDoubleBackslash (' ' :: 'i' :: 'n' :: ' ' :: collapseBackslashes p) = none
    exact findDoubleBackslash_cons_of_ne _ _ (by decide)
      (findDoubleBackslash_cons_of_ne _ _ (by decide)
        (findDoubleBackslash_cons_of_ne _ _ (by decide)
          (findDoubleBackslash_cons_of_ne _ _ (by decide) (findDoubleBackslash_collapse p))))
  refine ⟨hin, fun hp => ?_, collapseBackslashes_filter p, no_adjacent_of_find_none _ hfind⟩
  unfold FileNameString
  dsimp only
  rw [if_neg hp, hwin]
  dsimp only
  rw [hin]
  split <;> simp

/-- Witness for C6: a path with a doubled and a tripled separator becomes
`" in C:\Dns\Hosts.txt(Line %u)"`. -/
theorem FileNameString_windows_witness :
    FileNameString WindowsBuild (some "C:\\\\Dns\\\\\\Hosts.txt".toList) 3
      = some " in C:\\Dns\\Hosts.txt(Line %u)".toList :=
  ((FileNameString_windows WindowsBuild "C:\\\\Dns\\\\\\Hosts.txt".toList 3 rfl).2.1
    (by decide)).trans (by decide)

/-! ## Formatting lemmas -/

/-- A value in the range of `int` is unchanged by the cast to `int`. -/
theorem castInt_of_range (v : Int) (hlo : -2 ^ 31 ≤ v) (hhi : v < 2 ^ 31) : castInt v = v := by
  unfold castInt
  have h : (v + 2 ^ 31) % 2 ^ 32 = v + 2 ^ 31 :=
    Int.emod_eq_of_lt (by omega) (by omega)
  rw [h]
  omega

/-- A natural number below `2 ^ 32` is unchanged by the cast to `unsigned int`. -/
theorem castUnsigned_of_lt (n : Nat) (h : n < 2 ^ 32) : castUnsigned (n : Int) = n := by
  unfold castUnsigned
  have h2 : (n : Int) % 2 ^ 32 = (n : Int) := Int.emod_eq_of_lt (by omega) (by omega)
  rw [h2]
  exact Int.toNat_ofNat n

/-- Text without a percent sign is copied to the output. -/
theorem vfwprintf_s_text (s t : WString) (args : List Int) (hs : ∀ x ∈ s, x ≠ '%') :
    vfwprintf_s .Text (s ++ t) args
      = (vfwprintf_s .Text t args).map (fun out => s ++ out) := by
  induction s with
  | nil => simp
  | cons c s ih =>
    have hc : c ≠ '%' := hs c (List.mem_cons_self c s)
    have ih2 := ih (fun x hx => hs x (List.mem_cons_of_mem c hx))
    rw [List.cons_append, vfwprintf_s, if_neg hc, ih2, Option.map_map]
    rfl

/-- The conversion `%d` prints the low 32 bits of the next argument as a signed
decimal number. -/
theorem vfwprintf_s_d (t : WString) (a : Int) (rest : List Int) :
    vfwprintf_s .Text ('%' :: 'd' :: t) (a :: rest)
      = (vfwprintf_s .Text t rest).map (fun out => signedDecimal (castInt a) ++ out) := by
  rw [vfwprintf_s, if_pos rfl, vfwprintf_s, if_neg (by decide), if_neg (by decide),
    if_neg (by decide), if_pos (Or.inl rfl)]
  congr 1
  funext out
  by_cases ha : castInt a < 0 <;> simp [padNumber, signedDecimal, ha]

/-- The conversion `%u` prints the low 32 bits of the next argument as an
unsigned decimal number. -/
theorem vfwprintf_s_u (t : WString) (a : Int) (rest : List Int) :
    vfwprintf_s .Text ('%' :: 'u' :: t) (a :: rest)
      = (vfwprintf_s .Text t rest).map (fun out => decimal (castUnsigned a) ++ out) := by
  rw [vfwprintf_s, if_pos rfl, vfwprintf_s, if_neg (by decide), if_neg (by decide),
    if_neg (by decide), if_neg (by decide), if_pos rfl]
  congr 1
  funext out
  simp [padNumber]

/-- The arguments handed over with a non-zero error code start with the code. -/
theorem MessageArguments_of_ne_zero (ErrorCode : Int) (Line : Nat) (hc : ErrorCode ≠ 0) :
    MessageArguments ErrorCode Line = ErrorCode :: MessageArguments 0 Line := by
  unfold MessageArguments
  by_cases hl : Line > 0 <;> simp [hl, hc]

/-- The code placeholder in brackets prints the code in brackets. -/
theorem vfwprintf_s_bracket (R : WString) (a : Int) (rest : List Int) :
    vfwprintf_s .Text ("[%d]".toList ++ R) (a :: rest)
      = (vfwprintf_s .Text R rest).map
        (fun out => "[".toList ++ signedDecimal (castInt a) ++ "]".toList ++ out) := by
  show vfwprintf_s .Text (['['] ++ ('%' :: 'd' :: ([']'] ++ R))) (a :: rest) = _
  rw [vfwprintf_s_text _ _ _ (by decide), vfwprintf_s_d, vfwprintf_s_text _ _ _ (by decide),
    Option.map_map, Option.map_map]
  congr 1
  funext out
  simp

/-- The bare code placeholder prints the code. -/
theorem vfwprintf_s_bare (R : WString) (a : Int) (rest : List Int) :
    vfwprintf_s .Text ("%d".toList ++ R) (a :: rest)
      = (vfwprintf_s .Text R rest).map (fun out => signedDecimal (castInt a) ++ out) :=
  vfwprintf_s_d R a rest

/-- Where `vfwprintf_s` describes the output, that is what is written. -/
theorem fwprintf_s_of_some (B : Build) (Format : WString) (args : List Int) (out : WString)
    (h : vfwprintf_s .Text Format args = some out) : fwprintf_s B Format args = out := by
  unfold fwprintf_s
  rw [h]

/-- No details are added for error code 0. -/
theorem ErrorCodeToMessage_zero (B : Build) (Message : WString) :
    ErrorCodeToMessage B 0 Message = Message := by
  unfold ErrorCodeToMessage
  rw [if_pos rfl]

/-- With a description, the details are `": "`, the description and the
code placeholder in brackets. -/
theorem ErrorCodeToMessage_described (B : Build) (ErrorCode : Int) (Message d : WString)
    (hc : ErrorCode ≠ 0) (hd : Description B ErrorCode = some d) :
    ErrorCodeToMessage B ErrorCode Message = Message ++ ": ".toList ++ d ++ "[%d]".toList := by
  unfold ErrorCodeToMessage
  rw [if_neg hc]
  unfold Description at hd
  cases hp : B.platform with
  | PLATFORM_WIN =>
    rw [hp] at hd
    dsimp only at hd ⊢
    cases hr : B.FormatMessageW (castUnsigned ErrorCode) with
    | none => rw [hr] at hd; cases hd
    | some raw =>
      rw [hr] at hd
      dsimp only [Option.bind] at hd ⊢
      by_cases hlen : 2 ≤ raw.length
      · rw [if_pos hlen] at hd
        cases hd
        have h1 : raw ≠ [] := by
          intro h
          rw [h] at hlen
          simp at hlen
        have h2 : raw.dropLast ≠ [] := by
          intro h
          have := congrArg List.length h
          rw [List.length_dropLast] at this
          simp at this
          omega
        rw [List.dropLast_append_of_ne_nil _ h1, List.dropLast_append_of_ne_nil _ h2]
      · rw [if_neg hlen] at hd
        cases hd
  | PLATFORM_LINUX =>
    rw [hp] at hd
    dsimp only at hd ⊢
    rw [hd]
  | PLATFORM_MACX =>
    rw [hp] at hd
    dsimp only at hd ⊢
    rw [hd]

/-- For a non-zero code the message with details is a text without percent
signs followed by the code placeholder, bare or in brackets, provided the
message and the description (if there is one) have no percent sign. -/
theorem ErrorCodeToMessage_shape (B : Build) (ErrorCode : Int) (Message : WString)
    (hc : ErrorCode ≠ 0) (hM : ∀ x ∈ Message, x ≠ '%')
    (hd : ∀ d, Description B ErrorCode = some d → ∀ x ∈ d, x ≠ '%') :
    ∃ P : WString, (∀ x ∈ P, x ≠ '%') ∧
      (ErrorCodeToMessage B ErrorCode Message = P ++ "[%d]".toList ∨
        ErrorCodeToMessage B ErrorCode Message = P ++ "%d".toList) := by
  have hcolon : ∀ x ∈ Message ++ ": ".toList, x ≠ '%' := by
    intro x hx
    rcases List.mem_append.mp hx with h | h
    · exact hM x h
    · exact (by decide : ∀ y ∈ ": ".toList, y ≠ '%') x h
  cases hdesc : Description B ErrorCode with
  | some d =>
    refine ⟨Message ++ ": ".toList ++ d, ?_, Or.inl ?_⟩
    · intro x hx
      rcases List.mem_append.mp hx with h | h
      · exact hcolon x h
      · exact hd d hdesc x h
    · exact ErrorCodeToMessage_described B ErrorCode Message d hc hdesc
  | none =>
    unfold Description at hdesc
    unfold ErrorCodeToMessage
    rw [if_neg hc]
    cases hp : B.platform with
    | PLATFORM_WIN =>
      rw [hp] at hdesc
      dsimp only at hdesc ⊢
      cases hr : B.FormatMessageW (castUnsigned ErrorCode) with
      | none => exact ⟨_, hcolon, Or.inr rfl⟩
      | some raw =>
        rw [hr] at hdesc
        dsimp only [Option.bind] at hdesc ⊢
        refine ⟨_, ?_, Or.inl rfl⟩
        cases raw with
        | nil =>
          intro x hx
          rw [List.append_nil] at hx
          exact hcolon x (List.mem_of_mem_dropLast (List.mem_of_mem_dropLast hx))
        | cons a raw2 =>
          cases raw2 with
          | nil =>
            intro x hx
            rw [List.dropLast_append_of_ne_nil _ (List.cons_ne_nil a []), List.dropLast_single,
              List.append_nil] at hx
            exact hcolon x (List.mem_of_mem_dropLast hx)
          | cons b raw3 =>
            rw [if_pos (by simp)] at hdesc
            cases hdesc
    | PLATFORM_LINUX =>
      rw [hp] at hdesc
      dsimp only at hdesc ⊢
      rw [hdesc]
      exact ⟨_, hcolon, Or.inr rfl⟩
    | PLATFORM_MACX =>
      rw [hp] at hdesc
      dsimp only at hdesc ⊢
      rw [hdesc]
      exact ⟨_, hcolon, Or.inr rfl⟩

/-- The part of a line made of tag, message and error code details is printed as
a fixed text `Body` that uses up the error code argument when there is one; what
follows it is printed with the arguments that remain. -/
theorem ErrorCodeToMessage_printed_body (B : Build) (ErrorCode : Int) (Message : WString)
    (hM : ∀ x ∈ Message, x ≠ '%')
    (hd : ∀ d, Description B ErrorCode = some d → ∀ x ∈ d, x ≠ '%') :
    ∃ Body : WString, ∀ (R : WString) (Line : Nat),
      vfwprintf_s .Text (ErrorCodeToMessage B ErrorCode Message ++ R)
          (MessageArguments ErrorCode Line)
        = (vfwprintf_s .Text R (MessageArguments 0 Line)).map (fun out => Body ++ out) := by
  by_cases hc : ErrorCode = 0
  · subst hc
    refine ⟨Message, fun R Line => ?_⟩
    rw [ErrorCodeToMessage_zero, vfwprintf_s_text _ _ _ hM]
  · obtain ⟨P, hP, hshape⟩ := ErrorCodeToMessage_shape B ErrorCode Message hc hM hd
    rcases hshape with h | h
    · refine ⟨P ++ ("[".toList ++ signedDecimal (castInt ErrorCode) ++ "]".toList),
        fun R Line => ?_⟩
      rw [h, MessageArguments_of_ne_zero _ _ hc, List.append_assoc,
        vfwprintf_s_text _ _ _ hP, vfwprintf_s_bracket, Option.map_map]
      congr 1
      funext out
      simp
    · refine ⟨P ++ signedDecimal (castInt ErrorCode), fun R Line => ?_⟩
      rw [h, MessageArguments_of_ne_zero _ _ hc, List.append_assoc,
        vfwprintf_s_text _ _ _ hP, vfwprintf_s_bare, Option.map_map]
      congr 1
      funext out
      simp

/-! ## The file name string -/

/-- The single pass only keeps characters of its input. -/
theorem mem_of_mem_collapseBackslashes :
    ∀ (s : WString) (x : Char), x ∈ collapseBackslashes s → x ∈ s
  | [], _, h => h
  | [_], _, h => h
  | a :: b :: rest, x, h => by
    rw [collapseBackslashes_cons_cons] at h
    by_cases hab : a = '\\' ∧ b = '\\'
    · rw [if_pos hab] at h
      exact List.mem_cons_of_mem a (mem_of_mem_collapseBackslashes (b :: rest) x h)
    · rw [if_neg hab] at h
      rcases List.mem_cons.mp h with h1 | h1
      · rw [h1]
        exact List.mem_cons_self a _
      · exact List.mem_cons_of_mem a (mem_of_mem_collapseBackslashes (b :: rest) x h1)

/-- The loop applied to `" in "` and a file name. -/
theorem DeleteDoubleBackslash_in (p : WString) :
    DeleteDoubleBackslash (" in ".toList ++ p) = " in ".toList ++ collapseBackslashes p := by
  rw [DeleteDoubleBackslash_eq_collapse]
  show collapseBackslashes (' ' :: 'i' :: 'n' :: ' ' :: p)
    = ' ' :: 'i' :: 'n' :: ' ' :: collapseBackslashes p
  rw [collapseBackslashes_cons_of_ne _ _ (by decide),
    collapseBackslashes_cons_of_ne _ _ (by decide),
    collapseBackslashes_cons_of_ne _ _ (by decide),
    collapseBackslashes_cons_of_ne _ _ (by decide)]

/-- The file name string of a non-empty file name. -/
theorem FileNameString_some (B : Build) (f : WString) (Line : Nat) (hf : f ≠ []) :
    FileNameString B (some f) Line
      = some (" in ".toList ++ NormalizedPath B f
          ++ (if Line > 0 then "(Line %u)".toList else [])) := by
  unfold FileNameString NormalizedPath
  dsimp only
  rw [if_neg hf]
  cases B.platform with
  | PLATFORM_WIN =>
    dsimp only
    rw [DeleteDoubleBackslash_in]
    split <;> simp
  | PLATFORM_LINUX =>
    dsimp only
    split <;> simp
  | PLATFORM_MACX =>
    dsimp only
    split <;> simp

/-- The normalized path of a file name without percent signs has none. -/
theorem NormalizedPath_no_percent (B : Build) (f : WString) (hf : ∀ x ∈ f, x ≠ '%') :
    ∀ x ∈ NormalizedPath B f, x ≠ '%' := by
  intro x hx
  unfold NormalizedPath at hx
  cases hp : B.platform with
  | PLATFORM_WIN =>
    rw [hp] at hx
    exact hf x (mem_of_mem_collapseBackslashes f x hx)
  | PLATFORM_LINUX =>
    rw [hp] at hx
    exact hf x hx
  | PLATFORM_MACX =>
    rw [hp] at hx
    exact hf x hx

/-- The file name string and the closing `".\n"` are printed as the location
suffix and `".\n"`, the line placeholder taking the line number, for a line
number below `2 ^ 32`. -/
theorem FileNameString_printed (B : Build) (FileName : Option WString) (Line : Nat)
    (fs : WString) (hfs : FileNameString B FileName Line = some fs)
    (hf : ∀ f, FileName = some f → ∀ x ∈ f, x ≠ '%') (hline : Line < 2 ^ 32) :
    vfwprintf_s .Text (fs ++ ".\n".toList) (MessageArguments 0 Line)
      = some (LocationSuffix B FileName Line ++ ".\n".toList) := by
  have hend : ∀ args : List Int, vfwprintf_s .Text ".\n".toList args = some ".\n".toList := by
    intro args
    have h := vfwprintf_s_text ".\n".toList [] args (by decide)
    rw [List.append_nil] at h
    rw [h, vfwprintf_s]
    rfl
  cases FileName with
  | none =>
    have hnil : fs = [] := by
      have h : FileNameString B none Line = some [] := rfl
      rw [h] at hfs
      exact (Option.some.inj hfs).symm
    subst hnil
    exact hend _
  | some f =>
    have hne : f ≠ [] := by
      intro h
      subst h
      have h : FileNameString B (some []) Line = none := rfl
      rw [h] at hfs
      cases hfs
    rw [FileNameString_some B f Line hne] at hfs
    have hfs2 := (Option.some.inj hfs).symm
    subst hfs2
    have hbase : ∀ x ∈ " in ".toList ++ NormalizedPath B f, x ≠ '%' := by
      intro x hx
      rcases List.mem_append.mp hx with h | h
      · exact (by decide : ∀ y ∈ " in ".toList, y ≠ '%') x h
      · exact NormalizedPath_no_percent B f (hf f rfl) x h
    unfold LocationSuffix MessageArguments
    dsimp only
    by_cases hl : Line > 0
    · rw [if_pos hl, if_pos hl, if_neg (fun h => h.2 rfl), if_pos hl, List.append_assoc,
        vfwprintf_s_text _ _ _ hbase]
      show Option.map _ (vfwprintf_s .Text ("(Line ".toList ++ ('%' :: 'u' :: (")".toList
        ++ ".\n".toList))) [(Line : Int)]) = _
      rw [vfwprintf_s_text _ _ _ (by decide), vfwprintf_s_u, castUnsigned_of_lt Line hline,
        vfwprintf_s_text _ _ _ (by decide), hend]
      simp
    · rw [if_neg hl, if_neg hl, if_neg (fun h => hl h.1), if_neg hl, List.append_nil,
        if_neg (fun h => h rfl), vfwprintf_s_text _ _ _ hbase, hend]
      rfl

/-- The tag of an error type has no percent sign. -/
theorem ErrorTypeTag_no_percent (B : Build) (ErrorType : Nat) (Tag : WString)
    (h : ErrorTypeTag B ErrorType = some Tag) : ∀ x ∈ Tag, x ≠ '%' := by
  unfold ErrorTypeTag at h
  by_cases h1 : ErrorType = LOG_MESSAGE_NOTICE
  · rw [if_pos h1] at h
    cases h
    decide
  rw [if_neg h1] at h
  by_cases h2 : ErrorType = LOG_ERROR_SYSTEM
  · rw [if_pos h2] at h
    cases h
    decide
  rw [if_neg h2] at h
  by_cases h3 : ErrorType = LOG_ERROR_PARAMETER
  · rw [if_pos h3] at h
    cases h
    decide
  rw [if_neg h3] at h
  by_cases h4 : ErrorType = LOG_ERROR_IPFILTER
  · rw [if_pos h4] at h
    cases h
    decide
  rw [if_neg h4] at h
  by_cases h5 : ErrorType = LOG_ERROR_HOSTS
  · rw [if_pos h5] at h
    cases h
    decide
  rw [if_neg h5] at h
  by_cases h6 : ErrorType = LOG_ERROR_NETWORK
  · rw [if_pos h6] at h
    cases h
    decide
  rw [if_neg h6] at h
  by_cases h7 : B.ENABLE_PCAP = true ∧ ErrorType = LOG_ERROR_PCAP
  · rw [if_pos h7] at h
    cases h
    decide
  rw [if_neg h7] at h
  by_cases h8 : B.ENABLE_LIBSODIUM = true ∧ ErrorType = LOG_ERROR_DNSCURVE
  · rw [if_pos h8] at h
    cases h
    decide
  rw [if_neg h8] at h
  by_cases h9 : ErrorType = LOG_ERROR_SOCKS
  · rw [if_pos h9] at h
    cases h
    decide
  rw [if_neg h9] at h
  by_cases h10 : ErrorType = LOG_ERROR_HTTP
  · rw [if_pos h10] at h
    cases h
    decide
  rw [if_neg h10] at h
  cases h

/-! ## The sinks -/

/-- The screen block leaves the log file and the startup time alone. -/
theorem ScreenSink_after (B : Build) (G : Process) (LogStartupTime : Int) (t : tm)
    (Main : WString) :
    (ScreenSink B G LogStartupTime t Main).1.ErrorLog = G.ErrorLog ∧
      (ScreenSink B G LogStartupTime t Main).1.StartupTime = G.StartupTime := by
  unfold ScreenSink
  split <;> exact ⟨rfl, rfl⟩

/-- The events of the screen block: at most one startup line, none without a
startup time, and no file event. -/
theorem ScreenSink_events (B : Build) (G : Process) (LogStartupTime : Int) (t : tm)
    (Main : WString) :
    (ScreenSink B G LogStartupTime t Main).2.count Event.ScreenStartup ≤ 1 ∧
      (¬ LogStartupTime > 0 →
        (ScreenSink B G LogStartupTime t Main).2.count Event.ScreenStartup = 0) ∧
      (ScreenSink B G LogStartupTime t Main).2.count Event.FileStartup = 0 ∧
      Event.FileDeleted ∉ (ScreenSink B G LogStartupTime t Main).2 ∧
      Event.FileDeleteFailed ∉ (ScreenSink B G LogStartupTime t Main).2 ∧
      Event.FileMessage ∉ (ScreenSink B G LogStartupTime t Main).2 := by
  unfold ScreenSink
  by_cases ha : ScreenActive B G = true
  · rw [if_pos ha]
    by_cases hs : LogStartupTime > 0
    · simp only [eq_true hs, if_true]
      simp
    · simp only [eq_false hs, if_false]
      simp
  · rw [if_neg ha]
    simp

/-- When the deletion fails, the file blocks return false, change nothing and
write nothing. -/
theorem FileSink_delete_failed (B : Build) (Parameter : ConfigurationTable) (os : SystemCalls)
    (G : Process) (LogStartupTime : Int) (t : tm) (Main : WString)
    (h : Event.FileDeleteFailed ∈ (FileSink B Parameter os G LogStartupTime t Main).events) :
    (FileSink B Parameter os G LogStartupTime t Main).result = false ∧
      (FileSink B Parameter os G LogStartupTime t Main).after = G ∧
      Event.FileMessage ∉ (FileSink B Parameter os G LogStartupTime t Main).events := by
  unfold FileSink at h ⊢
  generalize FileTooLarge B Parameter G.ErrorLog = large at h ⊢
  obtain ⟨lt, rm, fo⟩ := os
  by_cases hs : LogStartupTime > 0
  · simp only [eq_true hs, if_true] at h ⊢
    cases large <;> cases rm <;> cases fo <;> simp at h ⊢
  · simp only [eq_false hs, if_false] at h ⊢
    cases large <;> cases rm <;> cases fo <;> simp at h ⊢

/-- When the file was deleted and then written, the new file holds the startup
line if a startup time was taken, the notice, the time stamp and the main
message. -/
theorem FileSink_rotated (B : Build) (Parameter : ConfigurationTable) (os : SystemCalls)
    (G : Process) (LogStartupTime : Int) (t : tm) (Main : WString)
    (hdel : Event.FileDeleted ∈ (FileSink B Parameter os G LogStartupTime t Main).events)
    (hres : (FileSink B Parameter os G LogStartupTime t Main).result = true) :
    (FileSink B Parameter os G LogStartupTime t Main).after.ErrorLog
      = some ((if LogStartupTime > 0 then StartupLine B t else []) ++ OldLogDeletedLine B t
          ++ TimeStamp B t ++ Main) := by
  unfold FileSink at hdel hres ⊢
  generalize FileTooLarge B Parameter G.ErrorLog = large at hdel hres ⊢
  generalize StartupLine B t = startup
  generalize OldLogDeletedLine B t = notice
  generalize TimeStamp B t = stamp
  obtain ⟨lt, rm, fo⟩ := os
  by_cases hs : LogStartupTime > 0
  · simp only [eq_true hs, if_true] at hdel hres ⊢
    cases large <;> cases rm <;> cases fo <;> simp at hdel hres ⊢
  · simp only [eq_false hs, if_false] at hdel hres ⊢
    cases large <;> cases rm <;> cases fo <;> simp at hdel hres ⊢

/-- When the deletion fails, the sinks return false and leave the log file as
it was, with nothing written to it. -/
theorem RunSinks_delete_failed (B : Build) (Parameter : ConfigurationTable) (os : SystemCalls)
    (G : Process) (LogStartupTime : Int) (t : tm) (Main : WString)
    (h : Event.FileDeleteFailed ∈ (RunSinks B Parameter os G LogStartupTime t Main).events) :
    (RunSinks B Parameter os G LogStartupTime t Main).result = false ∧
      (RunSinks B Parameter os G LogStartupTime t Main).after.ErrorLog = G.ErrorLog ∧
      Event.FileMessage ∉ (RunSinks B Parameter os G LogStartupTime t Main).events := by
  unfold RunSinks at h ⊢
  dsimp only at h ⊢
  have hs := ScreenSink_events B G LogStartupTime t Main
  have hfile : Event.FileDeleteFailed ∈ (FileSink B Parameter os
      (ScreenSink B G LogStartupTime t Main).1 LogStartupTime t Main).events := by
    rcases List.mem_append.mp h with h1 | h1
    · exact absurd h1 hs.2.2.2.2.1
    · exact h1
  have hf := FileSink_delete_failed B Parameter os (ScreenSink B G LogStartupTime t Main).1
    LogStartupTime t Main hfile
  refine ⟨hf.1, ?_, ?_⟩
  · rw [hf.2.1, (ScreenSink_after B G LogStartupTime t Main).1]
  · intro hm
    rcases List.mem_append.mp hm with h1 | h1
    · exact hs.2.2.2.2.2 h1
    · exact hf.2.2 h1

/-- When the sinks delete the log file and then write it, the new file holds
the startup line if a startup time was taken, the notice, the time stamp and
the main message. -/
theorem RunSinks_rotated (B : Build) (Parameter : ConfigurationTable) (os : SystemCalls)
    (G : Process) (LogStartupTime : Int) (t : tm) (Main : WString)
    (hdel : Event.FileDeleted ∈ (RunSinks B Parameter os G LogStartupTime t Main).events)
    (hres : (RunSinks B Parameter os G LogStartupTime t Main).result = true) :
    (RunSinks B Parameter os G LogStartupTime t Main).after.ErrorLog
      = some ((if LogStartupTime > 0 then StartupLine B t else []) ++ OldLogDeletedLine B t
          ++ TimeStamp B t ++ Main) := by
  unfold RunSinks at hdel hres ⊢
  dsimp only at hdel hres ⊢
  have hs := ScreenSink_events B G LogStartupTime t Main
  have hfile : Event.FileDeleted ∈ (FileSink B Parameter os
      (ScreenSink B G LogStartupTime t Main).1 LogStartupTime t Main).events := by
    rcases List.mem_append.mp hdel with h1 | h1
    · exact absurd h1 hs.2.2.2.1
    · exact h1
  exact FileSink_rotated B Parameter os _ LogStartupTime t Main hfile hres

/-- Without a local time nothing happens. -/
theorem WriteScreenAndFile_no_time (B : Build) (Parameter : ConfigurationTable)
    (os : SystemCalls) (G : Process) (Message : WString) (ErrorCode : Int) (Line : Nat)
    (hlt : os.localtime = none) :
    WriteScreenAndFile B Parameter os G Message ErrorCode Line = ⟨false, G, []⟩ := by
  unfold WriteScreenAndFile
  rw [hlt]

/-- With a local time and a pending startup time, the sinks run with the startup
time taken and cleared. -/
theorem WriteScreenAndFile_pending (B : Build) (Parameter : ConfigurationTable)
    (os : SystemCalls) (G : Process) (Message : WString) (ErrorCode : Int) (Line : Nat)
    (t : tm) (hlt : os.localtime = some t) (hs : G.StartupTime > 0) :
    WriteScreenAndFile B Parameter os G Message ErrorCode Line
      = RunSinks B Parameter os { G with StartupTime := 0 } G.StartupTime t
          (fwprintf_s B Message (MessageArguments ErrorCode Line)) := by
  unfold WriteScreenAndFile
  rw [hlt]
  dsimp only
  rw [if_pos hs, if_pos hs]

/-- With a local time and no pending startup time, the sinks run without a
startup time. -/
theorem WriteScreenAndFile_not_pending (B : Build) (Parameter : ConfigurationTable)
    (os : SystemCalls) (G : Process) (Message : WString) (ErrorCode : Int) (Line : Nat)
    (t : tm) (hlt : os.localtime = some t) (hs : ¬ G.StartupTime > 0) :
    WriteScreenAndFile B Parameter os G Message ErrorCode Line
      = RunSinks B Parameter os G 0 t
          (fwprintf_s B Message (MessageArguments ErrorCode Line)) := by
  unfold WriteScreenAndFile
  rw [hlt]
  dsimp only
  rw [if_neg hs, if_neg hs]

/-- The cast to `off_t` never yields more than the value itself. -/
theorem toOffT_le (n : Nat) : toOffT n ≤ (n : Int) := by
  unfold toOffT
  have h1 : n % 2 ^ 64 ≤ n := Nat.mod_le n _
  split <;> omega

/-- A log file of at least `LogMaxSize` bytes is too large; on Windows it must
also be non-empty. -/
theorem FileTooLarge_of_size (B : Build) (Parameter : ConfigurationTable) (old : WString)
    (hsize : FileSize old ≥ Parameter.LogMaxSize)
    (hwin : B.platform = .PLATFORM_WIN → 0 < FileSize old) :
    FileTooLarge B Parameter (some old) = true := by
  have hle := toOffT_le Parameter.LogMaxSize
  unfold FileTooLarge
  cases hp : B.platform with
  | PLATFORM_WIN =>
    dsimp only
    exact decide_eq_true ⟨hwin hp, hsize⟩
  | PLATFORM_LINUX =>
    dsimp only
    exact decide_eq_true (by omega)
  | PLATFORM_MACX =>
    dsimp only
    exact decide_eq_true (by omega)

/-- For a log file that is too large the file blocks ask for its deletion: a
failing deletion is reported, a successful one is reported and followed by
the writing of the file if it can be opened. -/
theorem FileSink_attempt (B : Build) (Parameter : ConfigurationTable) (os : SystemCalls)
    (G : Process) (LogStartupTime : Int) (t : tm) (Main : WString)
    (hlarge : FileTooLarge B Parameter G.ErrorLog = true) :
    (os.remove = false →
        Event.FileDeleteFailed ∈ (FileSink B Parameter os G LogStartupTime t Main).events) ∧
      (os.remove = true → os.fopen = true →
        Event.FileDeleted ∈ (FileSink B Parameter os G LogStartupTime t Main).events ∧
        (FileSink B Parameter os G LogStartupTime t Main).result = true) := by
  unfold FileSink
  rw [hlarge]
  obtain ⟨lt, rm, fo⟩ := os
  cases rm <;> cases fo <;> simp

/-- The same for the two sinks in sequence. -/
theorem RunSinks_attempt (B : Build) (Parameter : ConfigurationTable) (os : SystemCalls)
    (G : Process) (LogStartupTime : Int) (t : tm) (Main : WString)
    (hlarge : FileTooLarge B Parameter G.ErrorLog = true) :
    (os.remove = false →
        Event.FileDeleteFailed ∈ (RunSinks B Parameter os G LogStartupTime t Main).events) ∧
      (os.remove = true → os.fopen = true →
        Event.FileDeleted ∈ (RunSinks B Parameter os G LogStartupTime t Main).events ∧
        (RunSinks B Parameter os G LogStartupTime t Main).result = true) := by
  unfold RunSinks
  dsimp only
  have hl : FileTooLarge B Parameter (ScreenSink B G LogStartupTime t Main).1.ErrorLog
      = true := by
    rw [(ScreenSink_after B G LogStartupTime t Main).1]
    exact hlarge
  have h := FileSink_attempt B Parameter os (ScreenSink B G LogStartupTime t Main).1
    LogStartupTime t Main hl
  exact ⟨fun hr => List.mem_append_right _ (h.1 hr),
    fun hr hf => ⟨List.mem_append_right _ (h.2 hr hf).1, (h.2 hr hf).2⟩⟩

/-- The same for `WriteScreenAndFile` once the local time is obtained. -/
theorem WriteScreenAndFile_attempt (B : Build) (Parameter : ConfigurationTable)
    (os : SystemCalls) (G : Process) (Message : WString) (ErrorCode : Int) (Line : Nat)
    (htime : os.localtime ≠ none) (hlarge : FileTooLarge B Parameter G.ErrorLog = true) :
    (os.remove = false →
        Event.FileDeleteFailed ∈
          (WriteScreenAndFile B Parameter os G Message ErrorCode Line).events) ∧
      (os.remove = true → os.fopen = true →
        Event.FileDeleted ∈
          (WriteScreenAndFile B Parameter os G Message ErrorCode Line).events ∧
        (WriteScreenAndFile B Parameter os G Message ErrorCode Line).result = true) := by
  cases hlt : os.localtime with
  | none => exact absurd hlt htime
  | some t =>
    by_cases hs : G.StartupTime > 0
    · rw [WriteScreenAndFile_pending B Parameter os G Message ErrorCode Line t hlt hs]
      exact RunSinks_attempt B Parameter os _ _ t _ hlarge
    · rw [WriteScreenAndFile_not_pending B Parameter os G Message ErrorCode Line t hlt hs]
      exact RunSinks_attempt B Parameter os _ _ t _ hlarge

/-- Whether the screen block runs does not depend on the startup time. -/
theorem ScreenActive_cleared (B : Build) (G : Process) :
    ScreenActive B { G with StartupTime := 0 } = ScreenActive B G := by
  unfold ScreenActive
  cases B.platform <;> rfl

/-- What the screen block prints: with an active screen the startup line if a
startup time was taken, the time stamp and the main message, and nothing
otherwise; the startup event is reported exactly when the startup line is
printed. -/
theorem ScreenSink_text (B : Build) (G : Process) (LogStartupTime : Int) (t : tm)
    (Main : WString) :
    (ScreenSink B G LogStartupTime t Main).1.Screen
        = G.Screen ++ (if ScreenActive B G = true then
            (if LogStartupTime > 0 then StartupLine B t else []) ++ TimeStamp B t ++ Main
          else []) ∧
      (Event.ScreenStartup ∈ (ScreenSink B G LogStartupTime t Main).2 ↔
        ScreenActive B G = true ∧ LogStartupTime > 0) ∧
      Event.FileStartup ∉ (ScreenSink B G LogStartupTime t Main).2 := by
  unfold ScreenSink
  generalize StartupLine B t = startup
  generalize TimeStamp B t = stamp
  by_cases ha : ScreenActive B G = true
  · rw [if_pos ha, if_pos ha]
    by_cases hs : LogStartupTime > 0
    · simp only [eq_true hs, if_true]
      simp [ha]
    · simp only [eq_false hs, if_false]
      simp
  · rw [if_neg ha, if_neg ha]
    simp [ha]

/-- What the file blocks do: they leave the screen alone; they return true
exactly when no deletion fails and the file can be opened; then the log file
holds what was kept of it, the startup line if a startup time was taken, the
notice if the file was deleted, the time stamp and the main message; the
startup event is reported exactly when the startup line is written. -/
theorem FileSink_text (B : Build) (Parameter : ConfigurationTable) (os : SystemCalls)
    (G : Process) (LogStartupTime : Int) (t : tm) (Main : WString) :
    (FileSink B Parameter os G LogStartupTime t Main).after.Screen = G.Screen ∧
      ((FileSink B Parameter os G LogStartupTime t Main).result = true ↔
        ¬ (FileTooLarge B Parameter G.ErrorLog = true ∧ os.remove = false) ∧
          os.fopen = true) ∧
      ((FileSink B Parameter os G LogStartupTime t Main).result = true →
        (FileSink B Parameter os G LogStartupTime t Main).after.ErrorLog
          = some ((if FileTooLarge B Parameter G.ErrorLog = true then []
                else G.ErrorLog.getD [])
              ++ (if LogStartupTime > 0 then StartupLine B t else [])
              ++ (if FileTooLarge B Parameter G.ErrorLog = true then OldLogDeletedLine B t
                else [])
              ++ TimeStamp B t ++ Main)) ∧
      (Event.FileStartup ∈ (FileSink B Parameter os G LogStartupTime t Main).events ↔
        (FileSink B Parameter os G LogStartupTime t Main).result = true ∧
          LogStartupTime > 0) ∧
      Event.ScreenStartup ∉ (FileSink B Parameter os G LogStartupTime t Main).events := by
  unfold FileSink
  generalize FileTooLarge B Parameter G.ErrorLog = large
  generalize StartupLine B t = startup
  generalize OldLogDeletedLine B t = notice
  generalize TimeStamp B t = stamp
  obtain ⟨lt, rm, fo⟩ := os
  by_cases hs : LogStartupTime > 0
  · simp only [eq_true hs, if_true]
    cases large <;> cases rm <;> cases fo <;> simp
  · simp only [eq_false hs, if_false]
    cases large <;> cases rm <;> cases fo <;> simp

/-- What the two sinks in sequence print and report. -/
theorem RunSinks_text (B : Build) (Parameter : ConfigurationTable) (os : SystemCalls)
    (G : Process) (LogStartupTime : Int) (t : tm) (Main : WString) :
    (RunSinks B Parameter os G LogStartupTime t Main).after.Screen
        = G.Screen ++ (if ScreenActive B G = true then
            (if LogStartupTime > 0 then StartupLine B t else []) ++ TimeStamp B t ++ Main
          else []) ∧
      ((RunSinks B Parameter os G LogStartupTime t Main).result = true ↔
        ¬ (FileTooLarge B Parameter G.ErrorLog = true ∧ os.remove = false) ∧
          os.fopen = true) ∧
      ((RunSinks B Parameter os G LogStartupTime t Main).result = true →
        (RunSinks B Parameter os G LogStartupTime t Main).after.ErrorLog
          = some ((if FileTooLarge B Parameter G.ErrorLog = true then []
                else G.ErrorLog.getD [])
              ++ (if LogStartupTime > 0 then StartupLine B t else [])
              ++ (if FileTooLarge B Parameter G.ErrorLog = true then OldLogDeletedLine B t
                else [])
              ++ TimeStamp B t ++ Main)) ∧
      (Event.ScreenStartup ∈ (RunSinks B Parameter os G LogStartupTime t Main).events ↔
        ScreenActive B G = true ∧ LogStartupTime > 0) ∧
      (Event.FileStartup ∈ (RunSinks B Parameter os G LogStartupTime t Main).events ↔
        (RunSinks B Parameter os G LogStartupTime t Main).result = true ∧
          LogStartupTime > 0) := by
  have hs := ScreenSink_text B G LogStartupTime t Main
  have ha := ScreenSink_after B G LogStartupTime t Main
  have hf := FileSink_text B Parameter os (ScreenSink B G LogStartupTime t Main).1
    LogStartupTime t Main
  rw [ha.1] at hf
  unfold RunSinks
  dsimp only
  refine ⟨?_, hf.2.1, hf.2.2.1, ?_, ?_⟩
  · rw [hf.1, hs.1]
  · rw [List.mem_append]
    constructor
    · intro h
      rcases h with h | h
      · exact hs.2.1.mp h
      · exact absurd h hf.2.2.2.2
    · intro h
      exact Or.inl (hs.2.1.mpr h)
  · rw [List.mem_append]
    constructor
    · intro h
      rcases h with h | h
      · exact absurd h hs.2.2
      · exact hf.2.2.2.1.mp h
    · intro h
      exact Or.inr (hf.2.2.2.1.mpr h)

/-- What `WriteScreenAndFile` prints and reports once the local time is
obtained: on an active screen the startup line if the startup time was
pending, the time stamp and the message; the returned value is true exactly
when no deletion fails and the log file can be opened, and then the log file
holds what was kept of it, the startup line if the startup time was pending,
the notice if the file was deleted, the time stamp and the message; each
startup event is reported exactly when that startup line is printed. -/
theorem WriteScreenAndFile_text (B : Build) (Parameter : ConfigurationTable)
    (os : SystemCalls) (G : Process) (Message : WString) (ErrorCode : Int) (Line : Nat)
    (t : tm) (hlt : os.localtime = some t) :
    (WriteScreenAndFile B Parameter os G Message ErrorCode Line).after.Screen
        = G.Screen ++ (if ScreenActive B G = true then
            (if G.StartupTime > 0 then StartupLine B t else []) ++ TimeStamp B t
              ++ fwprintf_s B Message (MessageArguments ErrorCode Line)
          else []) ∧
      ((WriteScreenAndFile B Parameter os G Message ErrorCode Line).result = true ↔
        ¬ (FileTooLarge B Parameter G.ErrorLog = true ∧ os.remove = false) ∧
          os.fopen = true) ∧
      ((WriteScreenAndFile B Parameter os G Message ErrorCode Line).result = true →
        (WriteScreenAndFile B Parameter os G Message ErrorCode Line).after.ErrorLog
          = some ((if FileTooLarge B Parameter G.ErrorLog = true then []
                else G.ErrorLog.getD [])
              ++ (if G.StartupTime > 0 then StartupLine B t else [])
              ++ (if FileTooLarge B Parameter G.ErrorLog = true then OldLogDeletedLine B t
                else [])
              ++ TimeStamp B t ++ fwprintf_s B Message (MessageArguments ErrorCode Line))) ∧
      (Event.ScreenStartup ∈
          (WriteScreenAndFile B Parameter os G Message ErrorCode Line).events ↔
        ScreenActive B G = true ∧ G.StartupTime > 0) ∧
      (Event.FileStartup ∈
          (WriteScreenAndFile B Parameter os G Message ErrorCode Line).events ↔
        (WriteScreenAndFile B Parameter os G Message ErrorCode Line).result = true ∧
          G.StartupTime > 0) := by
  by_cases hs : G.StartupTime > 0
  · rw [WriteScreenAndFile_pending B Parameter os G Message ErrorCode Line t hlt hs]
    have h := RunSinks_text B Parameter os { G with StartupTime := 0 } G.StartupTime t
      (fwprintf_s B Message (MessageArguments ErrorCode Line))
    rw [ScreenActive_cleared] at h
    exact h
  · rw [WriteScreenAndFile_not_pending B Parameter os G Message ErrorCode Line t hlt hs]
    have h := RunSinks_text B Parameter os G 0 t
      (fwprintf_s B Message (MessageArguments ErrorCode Line))
    have h0 : ¬ (0 : Int) > 0 := by decide
    simp only [eq_false h0, eq_false hs, if_false, and_false] at h ⊢
    exact h

/-! ## The message as printed -/

/-- What a call with a tagged error type other than Pcap hands to
`WriteScreenAndFile`: the file name is not the empty string, and the message is
the tag, the message text, the error code details, the file name string and
`".\n"`. -/
theorem ComposeError_write (B : Build) (Parameter : ConfigurationTable)
    (ErrorLevel ErrorType : Nat) (Message Tag : WString) (ErrorCode : Int)
    (FileName : Option WString) (Line : Nat) (ErrorMessage : WString)
    (hreach : ComposeError B Parameter ErrorLevel ErrorType (some Message) ErrorCode FileName
      Line = .Write ErrorMessage)
    (htag : ErrorTypeTag B ErrorType = some Tag) (hcap : ErrorType ≠ LOG_ERROR_PCAP) :
    FileName ≠ some [] ∧
    ∃ fs : WString, FileNameString B FileName Line = some fs ∧
      ErrorMessage = ErrorCodeToMessage B ErrorCode (Tag ++ Message) ++ fs ++ ".\n".toList := by
  have hlevel : ¬ (Parameter.PrintLogLevel = 0 ∨ ErrorLevel > Parameter.PrintLogLevel) := by
    intro h
    rw [ComposeError_level B Parameter ErrorLevel ErrorType (some Message) ErrorCode FileName
      Line h] at hreach
    cases hreach
  have hne : Message ≠ [] := by
    intro h
    rw [ComposeError_no_message B Parameter ErrorLevel ErrorType (some Message) ErrorCode
      FileName Line (Or.inr (by rw [h]))] at hreach
    cases hreach
  cases hfs : FileNameString B FileName Line with
  | none =>
    rw [ComposeError_no_file_name_string B Parameter ErrorLevel ErrorType (some Message)
      ErrorCode FileName Line hfs] at hreach
    cases hreach
  | some fs =>
    have hfile : FileName ≠ some [] := by
      intro h
      rw [h] at hfs
      cases hfs
    refine ⟨hfile, fs, rfl, ?_⟩
    rw [ComposeError_switch B Parameter ErrorLevel ErrorType Message ErrorCode FileName Line fs
      (fun h => hlevel (Or.inl h)) (by omega) hne hfs, htag] at hreach
    dsimp only at hreach
    by_cases hnet : ErrorType = LOG_ERROR_NETWORK ∧ Parameter.PrintLogLevel < LOG_LEVEL_3 ∧
        (ErrorCode = B.WSAENETUNREACH ∨ ErrorCode = B.WSAEHOSTUNREACH)
    · rw [if_pos hnet] at hreach
      cases hreach
    · rw [if_neg hnet, if_neg hcap] at hreach
      unfold FinishMessage at hreach
      exact (Composed.Write.inj hreach).symm

/-- With a description, the message with error code details followed by `R` is
printed as the message, `": "`, the description, the low 32 bits of the code
in brackets, and then `R` with the arguments that remain. -/
theorem ErrorCodeToMessage_described_printed (B : Build) (ErrorCode : Int)
    (Message d R : WString) (Line : Nat) (hc : ErrorCode ≠ 0)
    (hd : Description B ErrorCode = some d)
    (hM : ∀ x ∈ Message, x ≠ '%') (hdp : ∀ x ∈ d, x ≠ '%') :
    vfwprintf_s .Text (ErrorCodeToMessage B ErrorCode Message ++ R)
        (MessageArguments ErrorCode Line)
      = (vfwprintf_s .Text R (MessageArguments 0 Line)).map
        (fun out => Message ++ ": ".toList ++ d ++ "[".toList
          ++ signedDecimal (castInt ErrorCode) ++ "]".toList ++ out) := by
  have hP : ∀ x ∈ Message ++ ": ".toList ++ d, x ≠ '%' := by
    intro x hx
    rcases List.mem_append.mp hx with h | h
    · rcases List.mem_append.mp h with h1 | h1
      · exact hM x h1
      · exact (by decide : ∀ y ∈ ": ".toList, y ≠ '%') x h1
    · exact hdp x h
  rw [ErrorCodeToMessage_described B ErrorCode Message d hc hd,
    MessageArguments_of_ne_zero _ _ hc, List.append_assoc, vfwprintf_s_text _ _ _ hP,
    vfwprintf_s_bracket, Option.map_map]
  congr 1
  funext out
  simp

/-- The main message of a call with a described error code, as each sink
prints it, when code and line are in the range of their conversions and
message, description and file name have no percent sign. -/
theorem fwprintf_s_described (B : Build) (Parameter : ConfigurationTable)
    (ErrorLevel ErrorType : Nat) (Message Tag d : WString) (ErrorCode : Int)
    (FileName : Option WString) (Line : Nat) (ErrorMessage : WString)
    (hreach : ComposeError B Parameter ErrorLevel ErrorType (some Message) ErrorCode FileName
      Line = .Write ErrorMessage)
    (htag : ErrorTypeTag B ErrorType = some Tag) (hcap : ErrorType ≠ LOG_ERROR_PCAP)
    (hc : ErrorCode ≠ 0) (hlo : -2 ^ 31 ≤ ErrorCode) (hhi : ErrorCode < 2 ^ 31)
    (hline : Line < 2 ^ 32) (hd : Description B ErrorCode = some d)
    (hm : ∀ x ∈ Message, x ≠ '%') (hdp : ∀ x ∈ d, x ≠ '%')
    (hf : ∀ f, FileName = some f → ∀ x ∈ f, x ≠ '%') :
    fwprintf_s B ErrorMessage (MessageArguments ErrorCode Line)
      = Tag ++ Message ++ ": ".toList ++ d ++ "[".toList ++ signedDecimal ErrorCode
          ++ "]".toList ++ LocationSuffix B FileName Line ++ ".\n".toList := by
  obtain ⟨_, fs, hfs, hmsg⟩ := ComposeError_write B Parameter ErrorLevel ErrorType Message Tag
    ErrorCode FileName Line ErrorMessage hreach htag hcap
  have hTM : ∀ x ∈ Tag ++ Message, x ≠ '%' := by
    intro x hx
    rcases List.mem_append.mp hx with h | h
    · exact ErrorTypeTag_no_percent B ErrorType Tag htag x h
    · exact hm x h
  apply fwprintf_s_of_some
  rw [hmsg, List.append_assoc,
    ErrorCodeToMessage_described_printed B ErrorCode (Tag ++ Message) d _ Line hc hd hTM hdp,
    FileNameString_printed B FileName Line fs hfs hf hline, castInt_of_range _ hlo hhi]
  simp

/-! ## Error code suffix -/

/-- C4, as amended. Error code suffix: take a call with a tagged error type
other than Pcap that reaches `WriteScreenAndFile` and obtains the local time,
with a non-zero error code in the range of `int` whose lookup gives the
description `d` (on Windows the system text without its last two characters),
a line below `2 ^ 32`, and no percent sign in the message, in `d` or in the
file name. Then the line that the screen (when active) and the log file (when
the call returns true) receive after the time stamp is the tag, the message,
`": "`, `d`, `"["`, the decimal code, `"]"`, the location suffix and `".\n"`:
no blank stands between the description and the bracket. -/
theorem PrintError_code_suffix (B : Build) (Parameter : ConfigurationTable) (os : SystemCalls)
    (G : Process) (ErrorLevel ErrorType : Nat) (Message Tag d : WString) (ErrorCode : Int)
    (FileName : Option WString) (Line : Nat) (ErrorMessage : WString) (t : tm)
    (hreach : ComposeError B Parameter ErrorLevel ErrorType (some Message) ErrorCode FileName
      Line = .Write ErrorMessage)
    (htag : ErrorTypeTag B ErrorType = some Tag) (hcap : ErrorType ≠ LOG_ERROR_PCAP)
    (hc : ErrorCode ≠ 0) (hlo : -2 ^ 31 ≤ ErrorCode) (hhi : ErrorCode < 2 ^ 31)
    (hline : Line < 2 ^ 32) (hd : Description B ErrorCode = some d)
    (hm : ∀ x ∈ Message, x ≠ '%') (hdp : ∀ x ∈ d, x ≠ '%')
    (hf : ∀ f, FileName = some f → ∀ x ∈ f, x ≠ '%') (hlt : os.localtime = some t) :
    (PrintError B Parameter os G ErrorLevel ErrorType (some Message) ErrorCode FileName
        Line).after.Screen
      = G.Screen ++ (if ScreenActive B G = true then
          (if G.StartupTime > 0 then StartupLine B t else []) ++ TimeStamp B t
            ++ (Tag ++ Message ++ ": ".toList ++ d ++ "[".toList ++ signedDecimal ErrorCode
              ++ "]".toList ++ LocationSuffix B FileName Line ++ ".\n".toList)
        else []) ∧
    ((PrintError B Parameter os G ErrorLevel ErrorType (some Message) ErrorCode FileName
        Line).result = true →
      (PrintError B Parameter os G ErrorLevel ErrorType (some Message) ErrorCode FileName
          Line).after.ErrorLog
        = some ((if FileTooLarge B Parameter G.ErrorLog = true then []
              else G.ErrorLog.getD [])
            ++ (if G.StartupTime > 0 then StartupLine B t else [])
            ++ (if FileTooLarge B Parameter G.ErrorLog = true then OldLogDeletedLine B t
              else [])
            ++ TimeStamp B t
            ++ (Tag ++ Message ++ ": ".toList ++ d ++ "[".toList ++ signedDecimal ErrorCode
              ++ "]".toList ++ LocationSuffix B FileName Line ++ ".\n".toList))) := by
  have htext := fwprintf_s_described B Parameter ErrorLevel ErrorType Message Tag d ErrorCode
    FileName Line ErrorMessage hreach htag hcap hc hlo hhi hline hd hm hdp hf
  have hw := WriteScreenAndFile_text B Parameter os G ErrorMessage ErrorCode Line t hlt
  rw [htext] at hw
  unfold PrintError
  rw [hreach]
  exact ⟨hw.1, hw.2.2.1⟩

set_option maxRecDepth 20000 in
/-- Witness for C4 as amended: error code 2 on the Linux build is written to the
log file as `": No such file or directory[2]"`. -/
theorem PrintError_code_suffix_witness :
    (PrintError LinuxBuild ⟨1, 4096⟩ ⟨some SampleTime, true, true⟩ QuietProcess 1
        LOG_ERROR_SYSTEM (some "Open".toList) 2 none 0).after.ErrorLog
      = some ("[2016-01-02 03:04:05] -> ".toList
          ++ "[System Error] Open: No such file or directory[2].\n".toList) :=
  ((PrintError_code_suffix LinuxBuild ⟨1, 4096⟩ ⟨some SampleTime, true, true⟩ QuietProcess 1
    LOG_ERROR_SYSTEM "Open".toList "[System Error] ".toList "No such file or directory".toList
    2 none 0 "[System Error] Open: No such file or directory[%d].\n".toList SampleTime
    (by decide) (by decide) (by decide) (by decide) (by decide) (by decide) (by decide)
    rfl (by decide) (by decide) (fun f h => by cases h) rfl).2 (by decide)).trans (by decide)

set_option maxRecDepth 20000 in
/-- Counterexample to C4 as stated: for error code 2 on the Linux build the log
file receives `": No such file or directory[2]"`, without a blank before the
bracket. Two further departures are left out of the amended claim: an error
code outside the range of `int` (here `2 ^ 32 + 2`) is printed by its low 32
bits, and a Windows system text with an insert sequence (`%1`) leaves a
message that is not a format described by `vfwprintf_s`. -/
theorem ErrorCodeToMessage_no_blank_before_bracket :
    (PrintError LinuxBuild ⟨1, 4096⟩ ⟨some SampleTime, true, true⟩ QuietProcess 1
        LOG_ERROR_SYSTEM (some "Open".toList) 2 none 0).after.ErrorLog
      = some ("[2016-01-02 03:04:05] -> ".toList
          ++ "[System Error] Open: No such file or directory[2].\n".toList) ∧
    (PrintError LinuxBuild ⟨1, 4096⟩ ⟨some SampleTime, true, true⟩ QuietProcess 1
        LOG_ERROR_SYSTEM (some "Open".toList) 2 none 0).after.ErrorLog
      ≠ some ("[2016-01-02 03:04:05] -> ".toList
          ++ "[System Error] Open: No such file or directory [2].\n".toList) ∧
    (PrintError LinuxBuild ⟨1, 4096⟩ ⟨some SampleTime, true, true⟩ QuietProcess 1
        LOG_ERROR_SYSTEM (some "Open".toList) 4294967298 none 0).after.ErrorLog
      = some ("[2016-01-02 03:04:05] -> ".toList
          ++ "[System Error] Open: No such file or directory[2].\n".toList) ∧
    PrintedMessage
        (ErrorCodeToMessage WindowsBuild 193 "[System Error] Open".toList ++ ".\n".toList)
        193 0 = none := by
  decide

/-! ## Location suffix -/

/-- The main message of a call with a tagged error type other than Pcap, as
`vfwprintf_s` describes it when the line is below `2 ^ 32` and message, file
name and description (if any) have no percent sign: `Body`, the location suffix
and `".\n"`, where `Body` is the tag, message and error code details printed
with the error code as the only argument. -/
theorem PrintError_printed_line (B : Build) (Parameter : ConfigurationTable)
    (ErrorLevel ErrorType : Nat) (Message Tag : WString) (ErrorCode : Int)
    (FileName : Option WString) (Line : Nat) (ErrorMessage : WString)
    (hreach : ComposeError B Parameter ErrorLevel ErrorType (some Message) ErrorCode FileName
      Line = .Write ErrorMessage)
    (htag : ErrorTypeTag B ErrorType = some Tag) (hcap : ErrorType ≠ LOG_ERROR_PCAP)
    (hline : Line < 2 ^ 32)
    (hm : ∀ x ∈ Message, x ≠ '%') (hf : ∀ f, FileName = some f → ∀ x ∈ f, x ≠ '%')
    (hd : ∀ d, Description B ErrorCode = some d → ∀ x ∈ d, x ≠ '%') :
    ∃ Body : WString,
      vfwprintf_s .Text (ErrorCodeToMessage B ErrorCode (Tag ++ Message))
          (MessageArguments ErrorCode 0) = some Body ∧
      PrintedMessage ErrorMessage ErrorCode Line
        = some (Body ++ LocationSuffix B FileName Line ++ ".\n".toList) := by
  obtain ⟨_, fs, hfs, hmsg⟩ := ComposeError_write B Parameter ErrorLevel ErrorType Message Tag
    ErrorCode FileName Line ErrorMessage hreach htag hcap
  have hTM : ∀ x ∈ Tag ++ Message, x ≠ '%' := by
    intro x hx
    rcases List.mem_append.mp hx with h | h
    · exact ErrorTypeTag_no_percent B ErrorType Tag htag x h
    · exact hm x h
  obtain ⟨Body, hBody⟩ :=
    ErrorCodeToMessage_printed_body B ErrorCode (Tag ++ Message) hTM hd
  refine ⟨Body, ?_, ?_⟩
  · have h := hBody [] 0
    rw [List.append_nil] at h
    rw [h]
    have hnil : vfwprintf_s .Text [] (MessageArguments 0 0) = some [] := by
      rw [vfwprintf_s]
    rw [hnil]
    simp
  · unfold PrintedMessage
    rw [hmsg, List.append_assoc, hBody, FileNameString_printed B FileName Line fs hfs hf hline]
    simp

set_option maxRecDepth 20000 in
/-- C5. The code at two inputs where it departs from the claim. A Hosts error
with a file name and line `2 ^ 32 + 5` on the Linux build is written to the log
file with the location suffix `" in Hosts.conf(Line 5)"`: the `size_t` line
goes to `%u`, which prints its low 32 bits. And on the Windows build the
system text of error 193 keeps its insert sequence `%1` in the message handed
to the sinks, which is then not a format described by `vfwprintf_s`, although
the message text and the file name have no percent sign. -/
theorem PrintError_location_suffix_departs :
    (PrintError LinuxBuild ⟨2, 4096⟩ ⟨some SampleTime, true, true⟩ QuietProcess 2
        LOG_ERROR_HOSTS (some "Read".toList) 0 (some "Hosts.conf".toList)
        4294967301).after.ErrorLog
      = some ("[2016-01-02 03:04:05] -> ".toList
          ++ "[Hosts Error] Read in Hosts.conf(Line 5).\n".toList) ∧
    ComposeError WindowsBuild ⟨1, 4096⟩ 1 LOG_ERROR_SYSTEM (some "Load".toList) 193
        (some "a.txt".toList) 7
      = .Write ("[System Error] Load: %1 is not a valid Win32 application[%d]".toList
          ++ " in a.txt(Line %u).\n".toList) ∧
    PrintedMessage ("[System Error] Load: %1 is not a valid Win32 application[%d]".toList
        ++ " in a.txt(Line %u).\n".toList) 193 7 = none := by
  refine ⟨by decide, ?_, by decide⟩
  rw [ComposeError_switch WindowsBuild ⟨1, 4096⟩ 1 LOG_ERROR_SYSTEM "Load".toList 193
    (some "a.txt".toList) 7 _ (by decide) (by decide) (by decide)
    (FileNameString_some WindowsBuild "a.txt".toList 7 (by decide))]
  decide

/-! ## Rotation of the log file -/

/-- C7, as amended. Rotation notice: let `WriteScreenAndFile` start with a
log file of at least `LogMaxSize` bytes. If the call deletes that file and
then opens and writes the log file, the new file holds exactly: the startup
line if the startup time was still pending, then the "Old log file was
deleted" line, then the time stamp and the main message; so it begins with the
notice line when no startup line is pending. And the call does delete and
write the file whenever the local time is obtained and deleting and opening
succeed (on Windows the old file must not be empty). -/
theorem WriteScreenAndFile_rotation (B : Build) (Parameter : ConfigurationTable)
    (os : SystemCalls) (G : Process) (Message : WString) (ErrorCode : Int) (Line : Nat)
    (old : WString) (hold : G.ErrorLog = some old)
    (hsize : FileSize old ≥ Parameter.LogMaxSize) :
    (Event.FileDeleted ∈ (WriteScreenAndFile B Parameter os G Message ErrorCode Line).events →
      (WriteScreenAndFile B Parameter os G Message ErrorCode Line).result = true →
      ∃ t : tm, os.localtime = some t ∧
        (WriteScreenAndFile B Parameter os G Message ErrorCode Line).after.ErrorLog
          = some ((if G.StartupTime > 0 then StartupLine B t else []) ++ OldLogDeletedLine B t
              ++ TimeStamp B t ++ fwprintf_s B Message (MessageArguments ErrorCode Line))) ∧
    (os.localtime ≠ none → os.remove = true → os.fopen = true →
      (B.platform = .PLATFORM_WIN → 0 < FileSize old) →
      Event.FileDeleted ∈ (WriteScreenAndFile B Parameter os G Message ErrorCode Line).events ∧
      (WriteScreenAndFile B Parameter os G Message ErrorCode Line).result = true) := by
  constructor
  · intro hdel hopen
    cases hlt : os.localtime with
    | none =>
      rw [WriteScreenAndFile_no_time B Parameter os G Message ErrorCode Line hlt] at hdel
      cases hdel
    | some t =>
      refine ⟨t, rfl, ?_⟩
      by_cases hs : G.StartupTime > 0
      · rw [WriteScreenAndFile_pending B Parameter os G Message ErrorCode Line t hlt hs]
          at hdel hopen ⊢
        rw [RunSinks_rotated B Parameter os _ _ t _ hdel hopen]
      · rw [WriteScreenAndFile_not_pending B Parameter os G Message ErrorCode Line t hlt hs]
          at hdel hopen ⊢
        rw [RunSinks_rotated B Parameter os _ _ t _ hdel hopen, if_neg hs,
          if_neg (by decide)]
  · intro htime hrm hfo hwin
    have hlarge : FileTooLarge B Parameter G.ErrorLog = true := by
      rw [hold]
      exact FileTooLarge_of_size B Parameter old hsize hwin
    exact (WriteScreenAndFile_attempt B Parameter os G Message ErrorCode Line htime hlarge).2
      hrm hfo

set_option maxRecDepth 20000 in
/-- Witness for C7 as amended: the startup time is no longer pending, the log
file has reached the maximum size, and the new file begins with the notice
line. -/
theorem WriteScreenAndFile_rotation_witness :
    ∃ t : tm, (⟨some SampleTime, true, true⟩ : SystemCalls).localtime = some t ∧
      (WriteScreenAndFile LinuxBuild ⟨1, 4⟩ ⟨some SampleTime, true, true⟩
          { QuietProcess with ErrorLog := some "full".toList } "[Notice] Test.\n".toList 0
          0).after.ErrorLog
        = some ((if QuietProcess.StartupTime > 0 then StartupLine LinuxBuild t else [])
            ++ OldLogDeletedLine LinuxBuild t ++ TimeStamp LinuxBuild t
            ++ fwprintf_s LinuxBuild "[Notice] Test.\n".toList (MessageArguments 0 0)) :=
  (WriteScreenAndFile_rotation LinuxBuild ⟨1, 4⟩ ⟨some SampleTime, true, true⟩
    { QuietProcess with ErrorLog := some "full".toList } "[Notice] Test.\n".toList 0 0
    "full".toList rfl (by decide)).1 (by decide) (by decide)

set_option maxRecDepth 20000 in
/-- Counterexample to C7 as stated: on the first write of a process whose log
file has reached the maximum size, the file is deleted and the new file begins
with the startup line; the "Old log file was deleted" line comes second. -/
theorem WriteScreenAndFile_rotation_startup_first :
    (WriteScreenAndFile LinuxBuild ⟨1, 4⟩ ⟨some SampleTime, true, true⟩
        { FreshProcess with ErrorLog := some "full".toList } "[Notice] Test.\n".toList 0
        0).after.ErrorLog
      = some ("[2016-01-02 03:04:05] -> [Notice] Pcap_DNSProxy started.\n".toList
          ++ "[2016-01-02 03:04:05] -> [Notice] Old log file was deleted.\n".toList
          ++ "[2016-01-02 03:04:05] -> [Notice] Test.\n".toList) ∧
    (WriteScreenAndFile LinuxBuild ⟨1, 4⟩ ⟨some SampleTime, true, true⟩
        { FreshProcess with ErrorLog := some "full".toList } "[Notice] Test.\n".toList 0
        0).events
      = [Event.ScreenStartup, Event.ScreenMessage, Event.FileDeleted, Event.FileStartup,
          Event.FileOldDeleted, Event.FileMessage] := by
  decide

/-- C8. Failed rotation: let a call of `PrintError` start with a log file of at
least `LogMaxSize` bytes. If the deletion of that file fails during the call,
the call returns false, the log file is the same as before, and nothing was
written to it. And the deletion is attempted and fails whenever the call
reaches `WriteScreenAndFile`, the local time is obtained and the system
refuses to delete the file (on Windows the file must not be empty). -/
theorem PrintError_delete_failed (B : Build) (Parameter : ConfigurationTable)
    (os : SystemCalls) (G : Process) (ErrorLevel ErrorType : Nat) (Message : Option WString)
    (ErrorCode : Int) (FileName : Option WString) (Line : Nat) (old : WString)
    (hold : G.ErrorLog = some old) (hsize : FileSize old ≥ Parameter.LogMaxSize) :
    (Event.FileDeleteFailed ∈
        (PrintError B Parameter os G ErrorLevel ErrorType Message ErrorCode FileName
          Line).events →
      (PrintError B Parameter os G ErrorLevel ErrorType Message ErrorCode FileName Line).result
          = false ∧
        (PrintError B Parameter os G ErrorLevel ErrorType Message ErrorCode FileName
          Line).after.ErrorLog = some old ∧
        Event.FileMessage ∉
          (PrintError B Parameter os G ErrorLevel ErrorType Message ErrorCode FileName
            Line).events) ∧
    (∀ ErrorMessage : WString,
      ComposeError B Parameter ErrorLevel ErrorType Message ErrorCode FileName Line
        = .Write ErrorMessage →
      os.localtime ≠ none → os.remove = false →
      (B.platform = .PLATFORM_WIN → 0 < FileSize old) →
      Event.FileDeleteFailed ∈
        (PrintError B Parameter os G ErrorLevel ErrorType Message ErrorCode FileName
          Line).events) := by
  constructor
  · intro hfail
    unfold PrintError at hfail ⊢
    cases hc : ComposeError B Parameter ErrorLevel ErrorType Message ErrorCode FileName Line with
    | Return value =>
      rw [hc] at hfail
      cases hfail
    | Write ErrorMessage =>
      rw [hc] at hfail
      dsimp only at hfail ⊢
      cases hlt : os.localtime with
      | none =>
        rw [WriteScreenAndFile_no_time B Parameter os G ErrorMessage ErrorCode Line hlt]
          at hfail
        cases hfail
      | some t =>
        by_cases hs : G.StartupTime > 0
        · rw [WriteScreenAndFile_pending B Parameter os G ErrorMessage ErrorCode Line t hlt hs]
            at hfail ⊢
          have h := RunSinks_delete_failed B Parameter os _ _ t _ hfail
          exact ⟨h.1, h.2.1.trans hold, h.2.2⟩
        · rw [WriteScreenAndFile_not_pending B Parameter os G ErrorMessage ErrorCode Line t hlt
            hs] at hfail ⊢
          have h := RunSinks_delete_failed B Parameter os _ _ t _ hfail
          exact ⟨h.1, h.2.1.trans hold, h.2.2⟩
  · intro ErrorMessage hreach htime hrm hwin
    have hlarge : FileTooLarge B Parameter G.ErrorLog = true := by
      rw [hold]
      exact FileTooLarge_of_size B Parameter old hsize hwin
    unfold PrintError
    rw [hreach]
    exact (WriteScreenAndFile_attempt B Parameter os G ErrorMessage ErrorCode Line htime
      hlarge).1 hrm

/-- Witness for C8: the log file has reached the maximum size and cannot be
deleted. -/
theorem PrintError_delete_failed_witness :
    (PrintError LinuxBuild ⟨1, 4⟩ ⟨some SampleTime, false, true⟩
        { QuietProcess with ErrorLog := some "full".toList } 1 LOG_MESSAGE_NOTICE
        (some "Test".toList) 0 none 0).result = false ∧
      (PrintError LinuxBuild ⟨1, 4⟩ ⟨some SampleTime, false, true⟩
        { QuietProcess with ErrorLog := some "full".toList } 1 LOG_MESSAGE_NOTICE
        (some "Test".toList) 0 none 0).after.ErrorLog = some "full".toList ∧
      Event.FileMessage ∉
        (PrintError LinuxBuild ⟨1, 4⟩ ⟨some SampleTime, false, true⟩
          { QuietProcess with ErrorLog := some "full".toList } 1 LOG_MESSAGE_NOTICE
          (some "Test".toList) 0 none 0).events :=
  (PrintError_delete_failed LinuxBuild ⟨1, 4⟩ ⟨some SampleTime, false, true⟩
    { QuietProcess with ErrorLog := some "full".toList } 1 LOG_MESSAGE_NOTICE
    (some "Test".toList) 0 none 0 "full".toList rfl (by decide)).1 (by decide)

/-! ## The startup line -/

/-- C1. Rejected calls write nothing: when the configured level is 0, or the
requested level exceeds the configured level, or the message is absent or
empty, or the error type is not one the switch of this build knows,
`PrintError` returns false, reports no event, and leaves the process data
(screen, log file, startup time) exactly as they were. -/
theorem PrintError_rejected (B : Build) (Parameter : ConfigurationTable) (os : SystemCalls)
    (G : Process) (ErrorLevel ErrorType : Nat) (Message : Option WString) (ErrorCode : Int)
    (FileName : Option WString) (Line : Nat)
    (h : Parameter.PrintLogLevel = 0 ∨ ErrorLevel > Parameter.PrintLogLevel ∨ Message = none ∨
      Message = some [] ∨ ErrorTypeTag B ErrorType = none) :
    PrintError B Parameter os G ErrorLevel ErrorType Message ErrorCode FileName Line
      = ⟨false, G, []⟩ := by
  have hc : ComposeError B Parameter ErrorLevel ErrorType Message ErrorCode FileName Line
      = .Return false := by
    by_cases hlevel : Parameter.PrintLogLevel = 0 ∨ ErrorLevel > Parameter.PrintLogLevel
    · exact ComposeError_level B Parameter ErrorLevel ErrorType Message ErrorCode FileName Line
        hlevel
    · by_cases hmsg : Message = none ∨ Message = some []
      · exact ComposeError_no_message B Parameter ErrorLevel ErrorType Message ErrorCode
          FileName Line hmsg
      · have htag : ErrorTypeTag B ErrorType = none := by
          rcases h with h | h | h | h | h
          · exact absurd (Or.inl h) hlevel
          · exact absurd (Or.inr h) hlevel
          · exact absurd (Or.inl h) hmsg
          · exact absurd (Or.inr h) hmsg
          · exact h
        cases hfs : FileNameString B FileName Line with
        | none =>
          exact ComposeError_no_file_name_string B Parameter ErrorLevel ErrorType Message
            ErrorCode FileName Line hfs
        | some f =>
          cases Message with
          | none => exact absurd (Or.inl rfl) hmsg
          | some m =>
            have hm : m ≠ [] := fun hm => hmsg (Or.inr (by rw [hm]))
            rw [ComposeError_switch B Parameter ErrorLevel ErrorType m ErrorCode FileName Line
              f (fun h0 => hlevel (Or.inl h0)) (by omega) hm hfs, htag]
  unfold PrintError
  rw [hc]

/-- Witness for C1: a call above the configured level. -/
theorem PrintError_rejected_witness :
    PrintError LinuxBuild ⟨1, 4096⟩ ⟨some SampleTime, true, true⟩ FreshProcess 2
      LOG_ERROR_SYSTEM (some "Test".toList) 0 none 0 = ⟨false, FreshProcess, []⟩ :=
  PrintError_rejected LinuxBuild ⟨1, 4096⟩ ⟨some SampleTime, true, true⟩ FreshProcess 2
    LOG_ERROR_SYSTEM (some "Test".toList) 0 none 0 (Or.inr (Or.inl (by decide)))

/-- C2, as amended. Network unreachable suppression: when the configured level
is 1 or 2, the requested level does not exceed it, the message is not empty,
the error type is Network, the error code is one of the two unreachable codes
and the file name is absent or not empty, `PrintError` returns true, reports
no event and leaves the process data unchanged, whatever the line. -/
theorem PrintError_network_unreachable (B : Build) (Parameter : ConfigurationTable)
    (os : SystemCalls) (G : Process) (ErrorLevel : Nat) (Message : WString) (ErrorCode : Int)
    (FileName : Option WString) (Line : Nat)
    (hlevel : Parameter.PrintLogLevel = 1 ∨ Parameter.PrintLogLevel = 2)
    (hle : ErrorLevel ≤ Parameter.PrintLogLevel) (hm : Message ≠ [])
    (hcode : ErrorCode = B.WSAENETUNREACH ∨ ErrorCode = B.WSAEHOSTUNREACH)
    (hfile : FileName ≠ some []) :
    PrintError B Parameter os G ErrorLevel LOG_ERROR_NETWORK (some Message) ErrorCode FileName
      Line = ⟨true, G, []⟩ := by
  obtain ⟨f, hf⟩ := FileNameString_isSome B FileName Line hfile
  have h3 : Parameter.PrintLogLevel < LOG_LEVEL_3 := by
    simp only [LOG_LEVEL_3]
    omega
  have hc : ComposeError B Parameter ErrorLevel LOG_ERROR_NETWORK (some Message) ErrorCode
      FileName Line = .Return true := by
    rw [ComposeError_switch B Parameter ErrorLevel LOG_ERROR_NETWORK Message ErrorCode FileName
      Line f (by omega) hle hm hf]
    have htag : ErrorTypeTag B LOG_ERROR_NETWORK = some "[Network Error] ".toList := by
      simp [ErrorTypeTag, LOG_ERROR_NETWORK, LOG_MESSAGE_NOTICE, LOG_ERROR_SYSTEM,
        LOG_ERROR_PARAMETER, LOG_ERROR_IPFILTER, LOG_ERROR_HOSTS]
    rw [htag]
    dsimp only
    rw [if_pos ⟨rfl, h3, hcode⟩]
  unfold PrintError
  rw [hc]

/-- Witness for C2 as amended: level 2, host unreachable, a file and a line. -/
theorem PrintError_network_unreachable_witness :
    PrintError LinuxBuild ⟨2, 4096⟩ ⟨some SampleTime, true, true⟩ FreshProcess 1
      LOG_ERROR_NETWORK (some "Connect".toList) 113 (some "Network.cpp".toList) 42
      = ⟨true, FreshProcess, []⟩ :=
  PrintError_network_unreachable LinuxBuild ⟨2, 4096⟩ ⟨some SampleTime, true, true⟩ FreshProcess
    1 "Connect".toList 113 (some "Network.cpp".toList) 42 (Or.inr rfl) (by decide) (by decide)
    (Or.inr rfl) (by decide)

/-- Counterexample to C2 as stated: the call passes rule (a), the error type is
Network and the code is the network unreachable code, but the file name
supplied is the empty string, and `PrintError` returns false. -/
theorem PrintError_network_unreachable_empty_file_name :
    (PrintError LinuxBuild ⟨1, 4096⟩ ⟨some SampleTime, true, true⟩ FreshProcess 1
      LOG_ERROR_NETWORK (some "Connect".toList) LinuxBuild.WSAENETUNREACH (some []) 0).result
      = false := by
  decide

/-! ## The line handed to the sinks -/

/-- C3. Plain line format: for a non-empty message, an error type other than
Pcap with tag `T`, error code 0, no file name and line 0, a call that passes
the level filter (level not 0, requested level within it, not stopped by the
Network rule) hands `WriteScreenAndFile` exactly `T ++ Message ++ ".\n"`. -/
theorem PrintError_plain_line (B : Build) (Parameter : ConfigurationTable) (os : SystemCalls)
    (G : Process) (ErrorLevel ErrorType : Nat) (Message Tag : WString)
    (h0 : Parameter.PrintLogLevel ≠ 0) (hle : ErrorLevel ≤ Parameter.PrintLogLevel)
    (hm : Message ≠ []) (htag : ErrorTypeTag B ErrorType = some Tag)
    (hcap : ErrorType ≠ LOG_ERROR_PCAP)
    (hpass : ¬ (ErrorType = LOG_ERROR_NETWORK ∧ Parameter.PrintLogLevel < LOG_LEVEL_3 ∧
      ((0 : Int) = B.WSAENETUNREACH ∨ (0 : Int) = B.WSAEHOSTUNREACH))) :
    ComposeError B Parameter ErrorLevel ErrorType (some Message) 0 none 0
        = .Write (Tag ++ Message ++ ".\n".toList) ∧
      PrintError B Parameter os G ErrorLevel ErrorType (some Message) 0 none 0
        = WriteScreenAndFile B Parameter os G (Tag ++ Message ++ ".\n".toList) 0 0 := by
  have hc : ComposeError B Parameter ErrorLevel ErrorType (some Message) 0 none 0
      = .Write (Tag ++ Message ++ ".\n".toList) := by
    rw [ComposeError_switch B Parameter ErrorLevel ErrorType Message 0 none 0 [] h0 hle hm rfl,
      htag]
    dsimp only
    rw [if_neg hpass, if_neg hcap]
    unfold FinishMessage ErrorCodeToMessage
    rw [if_pos rfl, List.append_nil]
  refine ⟨hc, ?_⟩
  unfold PrintError
  rw [hc]

/-- Witness for C3: `PrintError(1, Notice, "Test", 0)` at level 1 hands over
exactly `"[Notice] Test.\n"`. -/
theorem PrintError_plain_line_witness :
    ComposeError LinuxBuild ⟨1, 4096⟩ 1 LOG_MESSAGE_NOTICE (some "Test".toList) 0 none 0
        = .Write "[Notice] Test.\n".toList ∧
      PrintError LinuxBuild ⟨1, 4096⟩ ⟨some SampleTime, true, true⟩ FreshProcess 1
          LOG_MESSAGE_NOTICE (some "Test".toList) 0 none 0
        = WriteScreenAndFile LinuxBuild ⟨1, 4096⟩ ⟨some SampleTime, true, true⟩ FreshProcess
          "[Notice] Test.\n".toList 0 0 :=
  PrintError_plain_line LinuxBuild ⟨1, 4096⟩ ⟨some SampleTime, true, true⟩ FreshProcess 1
    LOG_MESSAGE_NOTICE "Test".toList "[Notice] ".toList (by decide) (by decide) (by decide)
    (by decide) (by decide) (by decide)

/-- C10, as amended. Pcap lines: in a build with the Pcap case, for a call
that passes the level and message checks and whose file name is absent or not
empty, whatever the error code and the line, the message handed to
`WriteScreenAndFile` begins with `"[Pcap Error] "` and the message text and
is the same message as for error code 0, no file name and line 0: it carries
neither error code details nor a file name string. -/
theorem PrintError_pcap_line (B : Build) (Parameter : ConfigurationTable) (ErrorLevel : Nat)
    (Message : WString) (ErrorCode : Int) (FileName : Option WString) (Line : Nat)
    (hpcap : B.ENABLE_PCAP = true) (h0 : Parameter.PrintLogLevel ≠ 0)
    (hle : ErrorLevel ≤ Parameter.PrintLogLevel) (hm : Message ≠ [])
    (hfile : FileName ≠ some []) :
    ∃ ErrorMessage : WString,
      ComposeError B Parameter ErrorLevel LOG_ERROR_PCAP (some Message) ErrorCode FileName Line
          = .Write ErrorMessage ∧
        ComposeError B Parameter ErrorLevel LOG_ERROR_PCAP (some Message) 0 none 0
          = .Write ErrorMessage ∧
        ("[Pcap Error] ".toList ++ Message) <+: ErrorMessage := by
  obtain ⟨f, hf⟩ := FileNameString_isSome B FileName Line hfile
  have htag : ErrorTypeTag B LOG_ERROR_PCAP = some "[Pcap Error] ".toList := by
    simp [ErrorTypeTag, LOG_ERROR_PCAP, LOG_ERROR_NETWORK, LOG_MESSAGE_NOTICE, LOG_ERROR_SYSTEM,
      LOG_ERROR_PARAMETER, LOG_ERROR_IPFILTER, LOG_ERROR_HOSTS, hpcap]
  have hnet : ¬ LOG_ERROR_PCAP = LOG_ERROR_NETWORK := by decide
  refine ⟨"[Pcap Error] ".toList ++ Message, ?_, ?_, List.prefix_refl _⟩
  · rw [ComposeError_switch B Parameter ErrorLevel LOG_ERROR_PCAP Message ErrorCode FileName
      Line f h0 hle hm hf, htag]
    dsimp only
    rw [if_neg (fun h => hnet h.1), if_pos rfl]
  · rw [ComposeError_switch B Parameter ErrorLevel LOG_ERROR_PCAP Message 0 none 0 [] h0 hle hm
      rfl, htag]
    dsimp only
    rw [if_neg (fun h => hnet h.1), if_pos rfl]

/-- Witness for C10 as amended: a Pcap call with an error code, a file name and
a line. -/
theorem PrintError_pcap_line_witness :
    ∃ ErrorMessage : WString,
      ComposeError LinuxBuild ⟨3, 4096⟩ 3 LOG_ERROR_PCAP (some "Timeout".toList) 13
          (some "Capture.cpp".toList) 7 = .Write ErrorMessage ∧
        ComposeError LinuxBuild ⟨3, 4096⟩ 3 LOG_ERROR_PCAP (some "Timeout".toList) 0 none 0
          = .Write ErrorMessage ∧
        ("[Pcap Error] ".toList ++ "Timeout".toList) <+: ErrorMessage :=
  PrintError_pcap_line LinuxBuild ⟨3, 4096⟩ 3 "Timeout".toList 13 (some "Capture.cpp".toList) 7
    rfl (by decide) (by decide) (by decide) (by decide)

/-- Counterexample to C10 as stated: a Pcap call that passes the level filter
is handed over as `"[Pcap Error] Timeout"`, without the closing `".\n"`; and a
Pcap call that passes the level filter with the empty string as file name
hands over nothing and returns false. -/
theorem PrintError_pcap_line_not_terminated :
    ComposeError LinuxBuild ⟨3, 4096⟩ 3 LOG_ERROR_PCAP (some "Timeout".toList) 0 none 0
        = .Write "[Pcap Error] Timeout".toList ∧
      ComposeError LinuxBuild ⟨3, 4096⟩ 3 LOG_ERROR_PCAP (some "Timeout".toList) 0 none 0
        ≠ .Write ("[Pcap Error] ".toList ++ "Timeout".toList ++ ".\n".toList) ∧
      ComposeError LinuxBuild ⟨3, 4096⟩ 3 LOG_ERROR_PCAP (some "Timeout".toList) 0 (some []) 0
        = .Return false := by
  decide

end PrintLog
